import Mathlib

/-!
Verification development for the skywatch ADS-B tracker.

The Go sources are shallowly embedded: `float64` arithmetic is modelled by
exact rational arithmetic (`ℚ`), Go pointers to scalars (`*float64`, `*int`,
`*bool`) by `Option`-valued fields, `time.Time` by rational seconds, and the
concurrent maps by pure functions threaded through explicit state.  Every
definition follows the corresponding Go function; deviations forced by the
embedding (transcendental float math, heap aliasing) are called out in the
doc comment of the definition concerned.
-/

namespace Skywatch

/-- Truncation of a rational toward zero, the rounding Go applies when a
float is converted with `int(...)` and the one used by `math.Mod`. -/
def truncQ (q : ℚ) : ℤ := if q ≥ 0 then ⌊q⌋ else -(⌊-q⌋)

/-- Model of the helper `mod` in `internal/beast/cpr.go`: `math.Mod`
followed by adding the modulus when the remainder is negative.  All call
sites in the source use a positive modulus, for which `math.Mod a b =
a - b * trunc (a / b)` exactly. -/
def modQ (a b : ℚ) : ℚ :=
  let r := a - b * mkRat (truncQ (a / b)) 1
  if r < 0 then r + b else r

/-- Model of Go `math.Round`: round half away from zero. -/
def roundQ (q : ℚ) : ℤ := if q ≥ 0 then ⌊q + 1/2⌋ else -(⌊-q + 1/2⌋)

/-- Exact rational denoted by a Go unsigned integer when converted to
`float64` (the conversion is exact for all values appearing here).  Stated
with `mkRat` rather than the `Nat.cast` coercion so that concrete values
reduce. -/
def qOfNat (n : ℕ) : ℚ := mkRat n 1

/-- Exact rational denoted by an integer (Go int-to-float conversion,
exact for the magnitudes appearing here).  Stated with `mkRat` rather
than the `Int.cast` coercion so that concrete values reduce. -/
def qOfInt (n : ℤ) : ℚ := mkRat n 1

namespace Beast

/-- Transition latitudes (degrees, rounded to 1e-9) between longitude-zone
counts, listed for NL = 59 down to NL = 3.  `nl` in `internal/beast/cpr.go`
computes `floor(2π / acos(1 - a/cos²(lat·π/180)))` with
`a = 1 - cos(π/30)` and clamping of the acos argument to `[-1, 1]`; for
`|lat| < 87` that value is `n` exactly when `|lat|` lies below the
threshold for `n` and at or above the threshold for `n + 1`, where the
threshold for `n` is `acos(sqrt(a / (1 - cos(2π/n))))·180/π`.  The table
lists those thresholds; away from a 1e-9 neighbourhood of each threshold
the table reproduces the source function exactly. -/
def nlThresholds : List ℚ :=
  [ 10470471300 / 1000000000, 14828174369 / 1000000000, 18186263571 / 1000000000
  , 21029394926 / 1000000000, 23545044866 / 1000000000, 25829247071 / 1000000000
  , 27938987101 / 1000000000, 29911356857 / 1000000000, 31772097077 / 1000000000
  , 33539934363 / 1000000000, 35228995978 / 1000000000, 36850251076 / 1000000000
  , 38412418924 / 1000000000, 39922566843 / 1000000000, 41386518323 / 1000000000
  , 42809140122 / 1000000000, 44194549514 / 1000000000, 45546267227 / 1000000000
  , 46867332525 / 1000000000, 48160391281 / 1000000000, 49427764393 / 1000000000
  , 50671501656 / 1000000000, 51893424692 / 1000000000, 53095161528 / 1000000000
  , 54278174723 / 1000000000, 55443784445 / 1000000000, 56593187562 / 1000000000
  , 57727473539 / 1000000000, 58847637761 / 1000000000, 59954592767 / 1000000000
  , 61049177742 / 1000000000, 62132166592 / 1000000000, 63204274794 / 1000000000
  , 64266165226 / 1000000000, 65318453097 / 1000000000, 66361710084 / 1000000000
  , 67396467741 / 1000000000, 68423220221 / 1000000000, 69442426311 / 1000000000
  , 70454510750 / 1000000000, 71459864730 / 1000000000, 72458845447 / 1000000000
  , 73451774417 / 1000000000, 74438934157 / 1000000000, 75420562567 / 1000000000
  , 76396843908 / 1000000000, 77367894613 / 1000000000, 78333740829 / 1000000000
  , 79294282255 / 1000000000, 80249232133 / 1000000000, 81198013493 / 1000000000
  , 82139569805 / 1000000000, 83071994447 / 1000000000, 83991735630 / 1000000000
  , 84891661907 / 1000000000, 85755416209 / 1000000000, 86535369975 / 1000000000 ]

/-- Model of `nl` in `internal/beast/cpr.go` (number of longitude zones).
The special cases for `lat = 0`, `|lat| = 87` and `|lat| > 87` mirror the
source verbatim; the generic branch is the threshold-table form of the
source's `floor(2π/acos(...))` expression (see `nlThresholds`). -/
def nl (lat : ℚ) : ℤ :=
  if lat = 0 then 59
  else if |lat| = 87 then 2
  else if |lat| > 87 then 1
  else 59 - (nlThresholds.countP (fun t => decide (t ≤ |lat|)) : ℤ)

/-- Candidate even latitude computed inside `decodeCPR`
(`internal/beast/cpr.go` lines 168-186): the even-grid latitude derived
from the latitude-zone index `j`, brought below 270° into signed range. -/
def cprCandidateLatE (evenLat oddLat : ℕ) : ℚ :=
  let latEven : ℚ := qOfNat evenLat / 131072
  let latOdd : ℚ := qOfNat oddLat / 131072
  let j : ℚ := qOfInt ⌊59 * latEven - 60 * latOdd + 1/2⌋
  let latE := (360 / 60) * (modQ j 60 + latEven)
  if latE ≥ 270 then latE - 360 else latE

/-- Candidate odd latitude computed inside `decodeCPR`, analogous to
`cprCandidateLatE`. -/
def cprCandidateLatO (evenLat oddLat : ℕ) : ℚ :=
  let latEven : ℚ := qOfNat evenLat / 131072
  let latOdd : ℚ := qOfNat oddLat / 131072
  let j : ℚ := qOfInt ⌊59 * latEven - 60 * latOdd + 1/2⌋
  let latO := (360 / 59) * (modQ j 59 + latOdd)
  if latO ≥ 270 then latO - 360 else latO

/-- Model of `decodeCPR` in `internal/beast/cpr.go` (globally referenced
CPR decode from a paired even and odd frame).  The 17-bit encoded values
arrive as `uint32`, modelled by `ℕ`; all float arithmetic is exact
rational arithmetic. -/
def decodeCPR (evenLat evenLon oddLat oddLon : ℕ) (useOdd : Bool) :
    Option (ℚ × ℚ) :=
  let lonEven : ℚ := qOfNat evenLon / 131072
  let lonOdd : ℚ := qOfNat oddLon / 131072
  let latE := cprCandidateLatE evenLat oddLat
  let latO := cprCandidateLatO evenLat oddLat
  let nlE := nl latE
  let nlO := nl latO
  if nlE ≠ nlO then none
  else
    let p : ℚ × ℚ :=
      if useOdd then
        (latO,
          if nlO > 0 then
            let m : ℚ := qOfInt ⌊lonEven * (qOfInt nlO - 1) - lonOdd * qOfInt nlO + 1/2⌋
            (360 / qOfInt nlO) * (modQ m (qOfInt nlO) + lonOdd)
          else lonOdd * 360)
      else
        (latE,
          if nlE > 0 then
            let m : ℚ := qOfInt ⌊lonEven * (qOfInt nlE - 1) - lonOdd * qOfInt nlE + 1/2⌋
            (360 / qOfInt nlE) * (modQ m (qOfInt nlE) + lonEven)
          else lonEven * 360)
    let lat := p.1
    let lon := if p.2 ≥ 180 then p.2 - 360 else p.2
    if lat < -90 ∨ lat > 90 ∨ lon < -180 ∨ lon > 180 then none
    else some (lat, lon)


/-- Escape byte of the Beast framing (`EscapeByte` in
`internal/beast/parser.go`). -/
def escapeByte : ℕ := 0x1a

/-- Data length selected by the type tag in `ParseFrame`
(`internal/beast/parser.go` lines 49-58): tag `'1'` (0x31) is Mode-AC with
2 data bytes, `'2'` (0x32) Mode-S short with 7, `'3'` (0x33) Mode-S long
with 14; any other tag is rejected. -/
def typeLen (tag : ℕ) : Option ℕ :=
  if tag = 0x31 then some 2
  else if tag = 0x32 then some 7
  else if tag = 0x33 then some 14
  else none

/-- Model of `unescape` in `internal/beast/parser.go`: collapse each
doubled escape byte `0x1A 0x1A` into a single `0x1A`; the index loop of
the source becomes structural recursion on the byte list. -/
def unescape : List ℕ → List ℕ
  | [] => []
  | [b] => [b]
  | b0 :: b1 :: rest =>
    if b0 = escapeByte ∧ b1 = escapeByte then escapeByte :: unescape rest
    else b0 :: unescape (b1 :: rest)

/-- Model of `parseTimestamp` in `internal/beast/parser.go`: big-endian
accumulation of the first six bytes into the 48-bit Beast timestamp. -/
def parseTimestamp (l : List ℕ) : ℕ :=
  if l.length < 6 then 0
  else (l.take 6).foldl (fun ts b => ts <<< 8 ||| b) 0

/-- Model of `parseRSSI` in `internal/beast/parser.go`:
`float64(b)/255*35 - 50`, as an exact rational. -/
def parseRSSI (b : ℕ) : ℚ := qOfNat b / 255 * 35 - 50

/-- Parsed Beast message (`Message` in `internal/beast/parser.go`); bytes
are modelled by `ℕ` and the RSSI float by `ℚ`. -/
structure Msg where
  msgType : ℕ
  timestamp : ℕ
  rssi : ℚ
  data : List ℕ
deriving DecidableEq, Repr

/-- Model of `ParseFrame` in `internal/beast/parser.go`: returns the
parsed message (or `none`) together with the number of bytes consumed
from the front of the buffer. -/
def ParseFrame (data : List ℕ) : Option Msg × ℕ :=
  if data.length < 2 then (none, 0)
  else if data.getD 0 0 ≠ escapeByte then (none, 1)
  else
    match typeLen (data.getD 1 0) with
    | none => (none, 2)
    | some dataLen =>
      let frameLen := 2 + 6 + 1 + dataLen
      if data.length < frameLen then (none, 0)
      else
        let unescaped := unescape ((data.take frameLen).drop 2)
        if unescaped.length < 7 + dataLen then (none, frameLen)
        else
          (some { msgType := data.getD 1 0
                , timestamp := parseTimestamp (unescaped.take 6)
                , rssi := parseRSSI (unescaped.getD 6 0)
                , data := unescaped.drop 7 }, frameLen)

/-- Message contents of a complete unstuffed frame, for stating what the
loop of `Client.readBeast` extracts: the frame is `1A tag ts[6] rssi
data[n]` with no escape byte in its payload, so unescaping is the
identity. -/
def frameMsg (f : List ℕ) : Msg :=
  { msgType := f.getD 1 0
  , timestamp := parseTimestamp ((f.drop 2).take 6)
  , rssi := parseRSSI (f.getD 8 0)
  , data := f.drop 9 }

/-- Fuel-indexed model of the inner loop of `Client.readBeast`
(`internal/feed/client.go` lines 216-230): repeatedly call `ParseFrame`,
drop the consumed bytes, collect non-nil messages, and stop when zero
bytes are consumed.  Each non-zero step consumes at least one byte, so
fuel equal to the buffer length makes the model total while agreeing with
the unbounded source loop. -/
def parseLoopF : ℕ → List ℕ → List Msg × List ℕ
  | 0, data => ([], data)
  | fuel + 1, data =>
    match ParseFrame data with
    | (_, 0) => ([], data)
    | (msg, c + 1) =>
      let r := parseLoopF fuel (data.drop (c + 1))
      (match msg with
       | some m => m :: r.1
       | none => r.1, r.2)

/-- The `readBeast` parse loop on a buffer: messages extracted and bytes
retained for the next read. -/
def parseLoop (data : List ℕ) : List Msg × List ℕ :=
  parseLoopF data.length data


end Beast

namespace Models

/-- Trail point (`Position` in `pkg/models`); the Go pointer fields
`*int`/`*float64` are modelled by `Option` values (value-level view; the
aliasing of those pointers is modelled separately for `Aircraft.Copy`). -/
structure Position where
  lat : ℚ
  lon : ℚ
  altitudeFt : Option ℤ := none
  speedKt : Option ℚ := none
  heading : Option ℚ := none
  timestamp : ℚ
deriving DecidableEq, Repr

/-- Aircraft record (`Aircraft` in `pkg/models`).  Optional scalars are
`Option` values, `time.Time` is rational seconds, strings are strings;
Go's zero values are the field defaults. -/
structure Aircraft where
  icao : String
  callsign : String := ""
  registration : String := ""
  aircraftType : String := ""
  operatorName : String := ""
  lat : Option ℚ := none
  lon : Option ℚ := none
  altitudeFt : Option ℤ := none
  altitudeGNSS : Option ℤ := none
  speedKt : Option ℚ := none
  heading : Option ℚ := none
  verticalRate : Option ℤ := none
  squawk : String := ""
  onGround : Option Bool := none
  rssi : Option ℚ := none
  distanceNM : Option ℚ := none
  bearing : Option ℚ := none
  bearingCardinal : String := ""
  trail : List Position := []
  lastSeen : ℚ
deriving DecidableEq, Repr

/-- Model of `Aircraft.Merge` in `pkg/models`: overwrite a field with the
update's value when the update carries it (non-nil pointer, non-empty
string), keep the existing value otherwise; `LastSeen` is always taken
from the update.  Fields the source never touches in `Merge`
(registration, aircraft type, operator, distance, bearing, cardinal,
trail, ICAO) keep the receiver's values. -/
def Aircraft.Merge (a update : Aircraft) : Aircraft :=
  { a with
    callsign := if update.callsign ≠ "" then update.callsign else a.callsign
    lat := if update.lat.isSome then update.lat else a.lat
    lon := if update.lon.isSome then update.lon else a.lon
    altitudeFt := if update.altitudeFt.isSome then update.altitudeFt else a.altitudeFt
    altitudeGNSS := if update.altitudeGNSS.isSome then update.altitudeGNSS else a.altitudeGNSS
    speedKt := if update.speedKt.isSome then update.speedKt else a.speedKt
    heading := if update.heading.isSome then update.heading else a.heading
    verticalRate := if update.verticalRate.isSome then update.verticalRate else a.verticalRate
    squawk := if update.squawk ≠ "" then update.squawk else a.squawk
    onGround := if update.onGround.isSome then update.onGround else a.onGround
    rssi := if update.rssi.isSome then update.rssi else a.rssi
    lastSeen := update.lastSeen }

/-- Squawk well-formedness from the spec's data-model invariant: exactly
four characters, each drawn from '0' through '7'.  Used only to state
claims; the source performs no such validation. -/
def okSquawk (s : String) : Bool :=
  s.length = 4 && s.data.all (fun c => '0' ≤ c && c ≤ '7')

end Models

namespace SBS

/-- Numeric value of a non-empty all-digit character list, `none`
otherwise. -/
def digitsVal? (l : List Char) : Option ℕ :=
  match l with
  | [] => none
  | _ =>
    if l.all Char.isDigit then some (l.foldl (fun n c => n * 10 + (c.toNat - 48)) 0)
    else none

/-- Numeric value of a possibly empty all-digit character list (empty
reads as 0), `none` when a non-digit occurs. -/
def digitsValD (l : List Char) : Option ℕ :=
  if l.all Char.isDigit then some (l.foldl (fun n c => n * 10 + (c.toNat - 48)) 0)
  else none

/-- Unsigned plain decimal notation: `digits`, `digits.digits`,
`digits.` or `.digits`. -/
def parseDecimal (l : List Char) : Option ℚ :=
  match l.splitOn '.' with
  | [w] => (digitsVal? w).map qOfNat
  | [w, f] =>
    if w = [] ∧ f = [] then none
    else
      match digitsValD w, digitsValD f with
      | some wv, some fv => some (qOfNat wv + qOfNat fv / qOfNat (10 ^ f.length))
      | _, _ => none
  | _ => none

/-- Model of `parseInt` in `internal/sbs` (via `strconv.Atoi`): trim, then
an optional sign followed by at least one digit.  Go's int-overflow error
cannot occur for the field widths SBS carries and is not modelled. -/
def parseInt (s : String) : Option ℤ :=
  let t := s.trim
  if t = "" then none
  else
    match t.data with
    | '-' :: rest => (digitsVal? rest).map (fun n => -(Int.ofNat n))
    | '+' :: rest => (digitsVal? rest).map Int.ofNat
    | l => (digitsVal? l).map Int.ofNat

/-- Model of `parseFloat` in `internal/sbs` (via `strconv.ParseFloat`):
trim, optional sign, plain decimal notation, read as the exact rational.
Exponent, hex-float and inf/NaN notations, which SBS feeds never carry,
are outside the model. -/
def parseFloat (s : String) : Option ℚ :=
  let t := s.trim
  if t = "" then none
  else
    match t.data with
    | '-' :: rest => (parseDecimal rest).map (fun q => -q)
    | '+' :: rest => parseDecimal rest
    | l => parseDecimal l

/-- Model of `parseBool` in `internal/sbs`: `"-1"` and `"1"` are true,
`"0"` is false, anything else (after trimming) is absent. -/
def parseBool (s : String) : Option Bool :=
  let t := s.trim
  if t = "" then none
  else if t = "-1" ∨ t = "1" then some true
  else if t = "0" then some false
  else none

/-- Model of `ParseMessage` in `internal/sbs`: split the line on commas,
require at least 22 fields with field 0 equal to `MSG` and a non-blank
ICAO in field 4, then populate exactly the fields whose columns are
non-empty.  `time.Now()` is the `now` parameter. -/
def ParseMessage (now : ℚ) (line : String) : Option Models.Aircraft :=
  let fields := line.splitOn ","
  if fields.length < 22 then none
  else if fields.getD 0 "" ≠ "MSG" then none
  else
    let icao := (fields.getD 4 "").trim
    if icao = "" then none
    else
      let ac : Models.Aircraft := { icao := icao.toUpper, lastSeen := now }
      let ac := match (fields.getD 10 "").trim with
                | "" => ac
                | cs => { ac with callsign := cs }
      let ac := match parseInt (fields.getD 11 "") with
                | some v => { ac with altitudeFt := some v }
                | none => ac
      let ac := match parseFloat (fields.getD 12 "") with
                | some v => { ac with speedKt := some v }
                | none => ac
      let ac := match parseFloat (fields.getD 13 "") with
                | some v => { ac with heading := some v }
                | none => ac
      let ac := match parseFloat (fields.getD 14 "") with
                | some v => { ac with lat := some v }
                | none => ac
      let ac := match parseFloat (fields.getD 15 "") with
                | some v => { ac with lon := some v }
                | none => ac
      let ac := match parseInt (fields.getD 16 "") with
                | some v => { ac with verticalRate := some v }
                | none => ac
      let ac := match (fields.getD 17 "").trim with
                | "" => ac
                | sq => { ac with squawk := sq }
      let ac := match parseBool (fields.getD 21 "") with
                | some v => { ac with onGround := some v }
                | none => ac
      some ac

end SBS

namespace Tracker

/-- Model of `cosApprox` in `internal/tracker/tracker.go`: second-order
cosine approximation `1 - rad²/2` with the source's literal degree-radian
factor `0.0174533` read as its decimal value. -/
def cosApprox (deg : ℚ) : ℚ :=
  let rad := deg * (174533 / 10000000)
  1 - rad * rad / 2

/-- Model of `sqrtApprox` in `internal/tracker/tracker.go`: five Newton
iterations started at the argument itself, 0 for non-positive input. -/
def sqrtApprox (x : ℚ) : ℚ :=
  if x ≤ 0 then 0
  else
    let z := x
    let z := (z + x / z) / 2
    let z := (z + x / z) / 2
    let z := (z + x / z) / 2
    let z := (z + x / z) / 2
    let z := (z + x / z) / 2
    z

/-- Model of `quickDistanceNM` in `internal/tracker/tracker.go`: quick
equirectangular distance in nautical miles. -/
def quickDistanceNM (lat1 lon1 lat2 lon2 : ℚ) : ℚ :=
  let dLat := (lat2 - lat1) * 60
  let dLon := (lon2 - lon1) * 60 * cosApprox lat1
  sqrtApprox (dLat * dLat + dLon * dLon)

/-- Model of `Tracker.isPositionValid` in `internal/tracker/tracker.go`:
accept unless both records carry a position and the quick distance
exceeds `max 5 ((800/3600)·elapsed·1.5)` with elapsed seconds clamped to
at least 1.  `oldTime` is the existing record's `LastSeen`, exactly as
captured by `Tracker.Update` before merging. -/
def isPositionValid (existing update : Models.Aircraft) : Bool :=
  match update.lat, update.lon, existing.lat, existing.lon with
  | some ulat, some ulon, some elat, some elon =>
    let elapsed := update.lastSeen - existing.lastSeen
    let elapsed := if elapsed ≤ 0 then 1 else elapsed
    let dist := quickDistanceNM elat elon ulat ulon
    let maxDistNM := 800 / 3600 * elapsed * (3 / 2)
    let maxDistNM := if maxDistNM < 5 then 5 else maxDistNM
    decide (dist ≤ maxDistNM)
  | _, _, _, _ => true

/-- Static tracker configuration together with the two transcendental
helpers of `pkg/models` (`haversineNM` and `calculateBearing`), which use
`math.Sin`/`math.Cos`/`math.Atan2` and are therefore abstracted as
function parameters; no claim in scope depends on their values. -/
structure Cfg where
  rx : Option (ℚ × ℚ)
  trailLength : ℕ
  hav : ℚ → ℚ → ℚ → ℚ → ℚ
  brg : ℚ → ℚ → ℚ → ℚ → ℚ

/-- Model of `toCardinal` in `pkg/models`: 16-point compass name from a
rounded bearing.  Go's `%` truncates, so a negative bearing would index
out of bounds and panic; `calculateBearing` only produces values in
`[0, 360)`, and the model returns `""` on the (unreachable) negative
index. -/
def toCardinal (bearing : ℚ) : String :=
  let dirs := ["N", "NNE", "NE", "ENE", "E", "ESE", "SE", "SSE",
               "S", "SSW", "SW", "WSW", "W", "WNW", "NW", "NNW"]
  dirs.getD (Int.tmod (roundQ (bearing / (45 / 2))) 16).toNat ""

/-- Model of `Aircraft.CalculateDistance` in `pkg/models`: when a
receiver location is configured and the record carries a position, set
`distance_nm` (haversine rounded to 0.1), `bearing` (rounded to an
integer) and the cardinal string; otherwise leave the record unchanged. -/
def CalculateDistance (cfg : Cfg) (a : Models.Aircraft) : Models.Aircraft :=
  match cfg.rx, a.lat, a.lon with
  | some rx, some la, some lo =>
    let dist := qOfInt (roundQ (cfg.hav rx.1 rx.2 la lo * 10)) / 10
    let b := qOfInt (roundQ (cfg.brg rx.1 rx.2 la lo))
    { a with distanceNM := some dist, bearing := some b,
             bearingCardinal := toCardinal b }
  | _, _, _ => a

/-- Model of `Tracker.addToTrail` in `internal/tracker/tracker.go`:
append the current position (with optional altitude, speed, heading and
the record's `LastSeen`) and keep only the newest `trailLength` points. -/
def addToTrail (cfg : Cfg) (a : Models.Aircraft) : Models.Aircraft :=
  match a.lat, a.lon with
  | some la, some lo =>
    let pos : Models.Position :=
      { lat := la, lon := lo, altitudeFt := a.altitudeFt,
        speedKt := a.speedKt, heading := a.heading, timestamp := a.lastSeen }
    let tr := a.trail ++ [pos]
    { a with trail := if tr.length > cfg.trailLength
                      then tr.drop (tr.length - cfg.trailLength) else tr }
  | _, _ => a

/-- Effect of the existing-aircraft branch of `Tracker.Update`
(`internal/tracker/tracker.go` lines 241-296) on the stored record: run
the motion-plausibility filter (dropping the update's lat/lon on
failure), merge, recompute derived distance fields, and append a trail
point when the position changed and is present.  The branch's I/O side
channels (persistence queue, events, webhooks, FAA enrichment, session
max-range stats) do not touch the stored record and are outside the
model. -/
def updateExisting (cfg : Cfg) (ex u : Models.Aircraft) : Models.Aircraft :=
  let u2 := if isPositionValid ex u then u
            else { u with lat := none, lon := none }
  let m := CalculateDistance cfg (ex.Merge u2)
  let posChanged := ex.lat ≠ m.lat ∨ ex.lon ≠ m.lon
  if posChanged ∧ m.lat.isSome ∧ m.lon.isSome then addToTrail cfg m else m

/-- The tracker's live aircraft map, modelled as a function from ICAO to
an optional record. -/
def StateMap := String → Option Models.Aircraft

/-- Model of `Tracker.Update` in `internal/tracker/tracker.go` restricted
to its effect on the live map: ignore nil records and empty ICAOs; store
a copy (value semantics) with derived fields for a new ICAO; merge into
the existing record otherwise. -/
def Update (cfg : Cfg) (s : StateMap) (u : Option Models.Aircraft) : StateMap :=
  match u with
  | none => s
  | some u =>
    if u.icao = "" then s
    else
      match s u.icao with
      | none => fun i => if i = u.icao then some (CalculateDistance cfg u) else s i
      | some ex => fun i => if i = u.icao then some (updateExisting cfg ex u) else s i

/-- States of the live map reachable from the empty tracker by `Update`
calls whose records all satisfy `P`. -/
inductive ReachableP (cfg : Cfg) (P : Models.Aircraft → Prop) : StateMap → Prop
  | init : ReachableP cfg P (fun _ => none)
  | step {s : StateMap} (u : Models.Aircraft) :
      ReachableP cfg P s → P u → ReachableP cfg P (Update cfg s (some u))

/-- Concrete tracker configuration for witnesses: no receiver location,
the default trail bound 50, and arbitrary (zero) values for the two
abstracted transcendental helpers. -/
def cfg0 : Cfg :=
  { rx := none, trailLength := 50, hav := fun _ _ _ _ => 0, brg := fun _ _ _ _ => 0 }

end Tracker

namespace RangeTracker

/-- In-memory state of the polar range tracker (`Tracker` in
`internal/range/tracker.go`): the three 36-entry arrays are modelled as
functions on bucket indices (only 0-35 are ever used), plus the all-time
maximum.  The asynchronous durable save is I/O and outside the model. -/
structure State where
  maxByBearing : ℕ → ℚ
  icaoByBearing : ℕ → String
  countByBearing : ℕ → ℤ
  allTimeMaxNM : ℚ
  allTimeMaxICAO : String

/-- Fresh range-tracker state: zero maxima and counts, empty ICAOs. -/
def initState : State :=
  { maxByBearing := fun _ => 0, icaoByBearing := fun _ => "",
    countByBearing := fun _ => 0, allTimeMaxNM := 0, allTimeMaxICAO := "" }

/-- Bucket selection in `Tracker.Record`: `int(bearing/10)` (float
truncation) clamped to 35. -/
def bucketOf (bearing : ℚ) : ℕ :=
  let b := (truncQ (bearing / 10)).toNat
  if b ≥ 36 then 35 else b

/-- Model of `Tracker.Record` in `internal/range/tracker.go`: ignore
out-of-range bearings and non-positive distances; otherwise always bump
the bucket's contact count, update the bucket maximum and its ICAO only
on a strictly larger distance, and likewise the all-time maximum. -/
def Record (s : State) (bearing distanceNM : ℚ) (icao : String) : State :=
  if bearing < 0 ∨ 360 ≤ bearing ∨ distanceNM ≤ 0 then s
  else
    let bucket := bucketOf bearing
    let s1 : State :=
      { s with countByBearing :=
          fun i => if i = bucket then s.countByBearing bucket + 1
                   else s.countByBearing i }
    let s2 : State :=
      if s1.maxByBearing bucket < distanceNM then
        { s1 with
          maxByBearing :=
            fun i => if i = bucket then distanceNM else s1.maxByBearing i
          icaoByBearing :=
            fun i => if i = bucket then icao else s1.icaoByBearing i }
      else s1
    if s2.allTimeMaxNM < distanceNM then
      { s2 with allTimeMaxNM := distanceNM, allTimeMaxICAO := icao }
    else s2

/-- One call of the fold form of `Record`, for stating properties of call
sequences. -/
def recordCall (s : State) (c : ℚ × ℚ × String) : State :=
  Record s c.1 c.2.1 c.2.2

end RangeTracker

namespace Webhook

/-- Outbound webhook event (`Event` in `internal/webhook`), restricted to
the fields the emergency path populates: event type, the aircraft's ICAO
and squawk, the formatted message and the enqueue time. -/
structure Event where
  etype : String
  icao : String
  squawk : String
  message : String
  timestamp : ℚ
deriving DecidableEq, Repr

/-- Model of `NewEmergencyEvent` in `internal/webhook/events.go`:
an `emergency_squawk` event whose message is selected by the squawk. -/
def NewEmergencyEvent (now : ℚ) (icao squawk : String) : Event :=
  { etype := "emergency_squawk", icao := icao, squawk := squawk
  , message :=
      if squawk = "7500" then "HIJACK - Aircraft is being hijacked"
      else if squawk = "7600" then "RADIO FAILURE - Lost communications"
      else if squawk = "7700" then "EMERGENCY - General emergency declared"
      else "Unknown emergency"
  , timestamp := now }

/-- Dispatcher state (`Dispatcher` in `internal/webhook/dispatcher.go`):
the config bits the emergency path reads, the `recentSent` debounce map
(key to send time), and the bounded event queue (capacity 100). -/
structure DState where
  emergencyEnabled : Bool
  discordURL : String
  recentSent : String → Option ℚ
  events : List Event

/-- Model of `Dispatcher.shouldSend`: refuse without any state change
when the key was sent less than 5 minutes (300 s) ago, otherwise record
the current time for the key and accept. -/
def shouldSend (now : ℚ) (key : String) (s : DState) : Bool × DState :=
  let upd : DState :=
    { s with recentSent := fun k => if k = key then some now else s.recentSent k }
  match s.recentSent key with
  | some lastSent => if now - lastSent < 300 then (false, s) else (true, upd)
  | none => (true, upd)

/-- Model of `Dispatcher.Send`: drop silently when no webhook URL is
configured or the bounded queue (capacity 100) is full, else enqueue. -/
def Send (s : DState) (e : Event) : DState :=
  if s.discordURL = "" then s
  else if s.events.length < 100 then { s with events := s.events ++ [e] }
  else s

/-- Model of `Dispatcher.IsEmergencySquawk` in
`internal/webhook/dispatcher.go`. -/
def IsEmergencySquawk (squawk : String) : Bool :=
  squawk == "7500" || squawk == "7600" || squawk == "7700"

/-- Model of `Dispatcher.SendEmergency`: gated by the emergency-squawk
config flag and the per-ICAO debounce, then enqueue the formatted event.
The `now` parameter stands for `time.Now()`. -/
def SendEmergency (now : ℚ) (icao squawk : String) (s : DState) : DState :=
  if !s.emergencyEnabled then s
  else
    let r := shouldSend now ("emergency:" ++ icao) s
    if !r.1 then r.2
    else Send r.2 (NewEmergencyEvent now icao squawk)

end Webhook

namespace HeapModel

/-!
Heap-level model for `Aircraft.Copy` in `pkg/models` (claim about deep
copies).  Pointer-valued fields are modelled as optional cell addresses
into a heap of `float64` (`ℚ`), `int` (`ℤ`) and `bool` cells with a
bump allocator; `Copy`'s per-field reallocation becomes explicit
allocation, and Go's `copy(cpy.Trail, a.Trail)`, which copies the
`Position` structs verbatim, keeps the trail entries' cell addresses.
-/

/-- Heap of scalar cells with a bump allocator: all addresses ever
handed out are below `next`. -/
structure Heap where
  fval : ℕ → ℚ
  ival : ℕ → ℤ
  bval : ℕ → Bool
  next : ℕ

/-- Overwrite a float cell (a Go write through a `*float64`). -/
def writeF (h : Heap) (a : ℕ) (v : ℚ) : Heap :=
  { h with fval := fun n => if n = a then v else h.fval n }

/-- Overwrite an int cell (a Go write through an `*int`). -/
def writeI (h : Heap) (a : ℕ) (v : ℤ) : Heap :=
  { h with ival := fun n => if n = a then v else h.ival n }

/-- Overwrite a bool cell (a Go write through a `*bool`). -/
def writeB (h : Heap) (a : ℕ) (v : Bool) : Heap :=
  { h with bval := fun n => if n = a then v else h.bval n }

/-- Allocate a fresh float cell holding `v` (Go `v := *p; cpy.X = &v`). -/
def allocF (h : Heap) (v : ℚ) : ℕ × Heap :=
  (h.next, { writeF h h.next v with next := h.next + 1 })

/-- Allocate a fresh int cell holding `v`. -/
def allocI (h : Heap) (v : ℤ) : ℕ × Heap :=
  (h.next, { writeI h h.next v with next := h.next + 1 })

/-- Allocate a fresh bool cell holding `v`. -/
def allocB (h : Heap) (v : Bool) : ℕ × Heap :=
  (h.next, { writeB h h.next v with next := h.next + 1 })

/-- Copy one optional float pointer: `nil` stays `nil`, otherwise the
pointee is copied into a fresh cell. -/
def copyF (src : Option ℕ) (h : Heap) : Option ℕ × Heap :=
  match src with
  | none => (none, h)
  | some a =>
    let r := allocF h (h.fval a)
    (some r.1, r.2)

/-- Copy one optional int pointer. -/
def copyI (src : Option ℕ) (h : Heap) : Option ℕ × Heap :=
  match src with
  | none => (none, h)
  | some a =>
    let r := allocI h (h.ival a)
    (some r.1, r.2)

/-- Copy one optional bool pointer. -/
def copyB (src : Option ℕ) (h : Heap) : Option ℕ × Heap :=
  match src with
  | none => (none, h)
  | some a =>
    let r := allocB h (h.bval a)
    (some r.1, r.2)

/-- Trail point with pointer fields at the address level (`Position` in
`pkg/models`): `AltitudeFt *int`, `SpeedKt`, `Heading *float64`. -/
structure PosH where
  lat : ℚ
  lon : ℚ
  altitudeFt : Option ℕ := none
  speedKt : Option ℕ := none
  heading : Option ℕ := none
  timestamp : ℚ
deriving DecidableEq, Repr

/-- Aircraft record with pointer fields at the address level (`Aircraft`
in `pkg/models`): float pointers `lat lon speedKt heading rssi
distanceNM bearing`, int pointers `altitudeFt altitudeGNSS
verticalRate`, bool pointer `onGround`. -/
structure AircraftH where
  icao : String
  callsign : String := ""
  registration : String := ""
  aircraftType : String := ""
  operatorName : String := ""
  squawk : String := ""
  bearingCardinal : String := ""
  lat : Option ℕ := none
  lon : Option ℕ := none
  altitudeFt : Option ℕ := none
  altitudeGNSS : Option ℕ := none
  speedKt : Option ℕ := none
  heading : Option ℕ := none
  verticalRate : Option ℕ := none
  onGround : Option ℕ := none
  rssi : Option ℕ := none
  distanceNM : Option ℕ := none
  bearing : Option ℕ := none
  trail : List PosH := []
  lastSeen : ℚ
deriving DecidableEq, Repr

/-- Model of `Aircraft.Copy` in `pkg/models`: scalar strings and
`LastSeen` are copied by value; each non-nil pointer field gets a fresh
cell holding the pointee's value, allocated in the source's order (lat,
lon, altitude, GNSS altitude, speed, heading, vertical rate, on-ground,
distance, bearing, RSSI); the trail slice is reallocated but its
`Position` structs are copied verbatim, so the entries keep their
`altitudeFt`/`speedKt`/`heading` addresses. -/
def Copy (a : AircraftH) (h : Heap) : AircraftH × Heap :=
  let r1 := copyF a.lat h
  let r2 := copyF a.lon r1.2
  let r3 := copyI a.altitudeFt r2.2
  let r4 := copyI a.altitudeGNSS r3.2
  let r5 := copyF a.speedKt r4.2
  let r6 := copyF a.heading r5.2
  let r7 := copyI a.verticalRate r6.2
  let r8 := copyB a.onGround r7.2
  let r9 := copyF a.distanceNM r8.2
  let r10 := copyF a.bearing r9.2
  let r11 := copyF a.rssi r10.2
  ({ a with
      lat := r1.1, lon := r2.1, altitudeFt := r3.1, altitudeGNSS := r4.1,
      speedKt := r5.1, heading := r6.1, verticalRate := r7.1,
      onGround := r8.1, distanceNM := r9.1, bearing := r10.1,
      rssi := r11.1 }, r11.2)

/-- Value-level view of a trail point: every pointer dereferenced. -/
structure PosV where
  lat : ℚ
  lon : ℚ
  altitudeFt : Option ℤ
  speedKt : Option ℚ
  heading : Option ℚ
  timestamp : ℚ
deriving DecidableEq, Repr

/-- Value-level view of an aircraft record: every pointer dereferenced.
Two records that read equally are observationally identical to any
consumer of the snapshot. -/
structure AircraftV where
  icao : String
  callsign : String
  registration : String
  aircraftType : String
  operatorName : String
  squawk : String
  bearingCardinal : String
  lat : Option ℚ
  lon : Option ℚ
  altitudeFt : Option ℤ
  altitudeGNSS : Option ℤ
  speedKt : Option ℚ
  heading : Option ℚ
  verticalRate : Option ℤ
  onGround : Option Bool
  rssi : Option ℚ
  distanceNM : Option ℚ
  bearing : Option ℚ
  trail : List PosV
  lastSeen : ℚ
deriving DecidableEq, Repr

/-- Dereference a trail point in a heap. -/
def readPos (h : Heap) (p : PosH) : PosV :=
  { lat := p.lat, lon := p.lon, altitudeFt := p.altitudeFt.map h.ival,
    speedKt := p.speedKt.map h.fval, heading := p.heading.map h.fval,
    timestamp := p.timestamp }

/-- Dereference an aircraft record in a heap. -/
def readAircraft (h : Heap) (a : AircraftH) : AircraftV :=
  { icao := a.icao, callsign := a.callsign, registration := a.registration,
    aircraftType := a.aircraftType, operatorName := a.operatorName,
    squawk := a.squawk, bearingCardinal := a.bearingCardinal,
    lat := a.lat.map h.fval, lon := a.lon.map h.fval,
    altitudeFt := a.altitudeFt.map h.ival,
    altitudeGNSS := a.altitudeGNSS.map h.ival,
    speedKt := a.speedKt.map h.fval, heading := a.heading.map h.fval,
    verticalRate := a.verticalRate.map h.ival,
    onGround := a.onGround.map h.bval, rssi := a.rssi.map h.fval,
    distanceNM := a.distanceNM.map h.fval, bearing := a.bearing.map h.fval,
    trail := a.trail.map (readPos h), lastSeen := a.lastSeen }

/-- Boundedness of an optional address. -/
def optLt (o : Option ℕ) (n : ℕ) : Bool := o.all (fun a => decide (a < n))

/-- All addresses of a trail point lie below `n`. -/
def posWF (p : PosH) (n : ℕ) : Bool :=
  optLt p.altitudeFt n && optLt p.speedKt n && optLt p.heading n

/-- All addresses of an aircraft record lie below `n` (allocator
well-formedness: every pointer points at an allocated cell). -/
def acWF (a : AircraftH) (n : ℕ) : Bool :=
  optLt a.lat n && optLt a.lon n && optLt a.altitudeFt n &&
  optLt a.altitudeGNSS n && optLt a.speedKt n && optLt a.heading n &&
  optLt a.verticalRate n && optLt a.onGround n && optLt a.rssi n &&
  optLt a.distanceNM n && optLt a.bearing n &&
  a.trail.all (fun p => posWF p n)

/-- Heaps agreeing on every cell below `N` (used to state that Copy's
fresh allocations leave existing cells untouched). -/
def agreeBelow (h1 h2 : Heap) (N : ℕ) : Prop :=
  ∀ n, n < N →
    h1.fval n = h2.fval n ∧ h1.ival n = h2.ival n ∧ h1.bval n = h2.bval n

end HeapModel

end Skywatch

open Skywatch

set_option maxRecDepth 100000

namespace Skywatch.Beast

/-- Evaluation of the candidate even latitude for the spec's paired
frames (cprLatEven 92095, cprLatOdd 74158): 52.21577453…°. -/
theorem candE_92095 : cprCandidateLatE 92095 74158 = 3422013 / 65536 := by
  norm_num [cprCandidateLatE, qOfNat, qOfInt, modQ, truncQ]

/-- Evaluation of the candidate odd latitude for the spec's paired
frames: 52.26578017…°. -/
theorem candO_92095 : cprCandidateLatO 92095 74158 = 25261515 / 483328 := by
  norm_num [cprCandidateLatO, qOfNat, qOfInt, modQ, truncQ]

/-- Both candidate latitudes of the spec's paired frames sit in the
NL = 36 zone. -/
theorem nl_candE_92095 : nl (3422013 / 65536) = 36 := by
  norm_num [nl, nlThresholds, List.countP_cons, List.countP_nil,
    abs_of_nonneg, decide_eq_true_eq]

/-- Candidate odd latitude of the spec's paired frames: NL = 36. -/
theorem nl_candO_92095 : nl (25261515 / 483328) = 36 := by
  norm_num [nl, nlThresholds, List.countP_cons, List.countP_nil,
    abs_of_nonneg, decide_eq_true_eq]

/-- Full decode of the spec's paired frames: the code yields
lat = 52.26578017…°, lon = −142.90466308…°. -/
theorem decodeCPR_92095 : decodeCPR 92095 39846 74158 93000 true =
    some (25261515 / 483328, -1170675 / 8192) := by
  norm_num [decodeCPR, candE_92095, candO_92095, nl_candE_92095,
    nl_candO_92095, qOfNat, qOfInt, modQ, truncQ]

/-- Candidate latitudes for the NL-mismatch witness frames
(cprLatEven 85000, cprLatOdd 66200). -/
theorem candE_85000 : cprCandidateLatE 85000 66200 = 425091 / 8192 := by
  norm_num [cprCandidateLatE, qOfNat, qOfInt, modQ, truncQ]

/-- Candidate odd latitude of the witness frames. -/
theorem candO_85000 : cprCandidateLatO 85000 66200 = 6270615 / 120832 := by
  norm_num [cprCandidateLatO, qOfNat, qOfInt, modQ, truncQ]

/-- The witness frames' candidate latitudes straddle the 51.89342469°
zone boundary: NL 37 on the even side. -/
theorem nl_candE_85000 : nl (425091 / 8192) = 37 := by
  norm_num [nl, nlThresholds, List.countP_cons, List.countP_nil,
    abs_of_nonneg, decide_eq_true_eq]

/-- NL 36 on the odd side of the witness frames. -/
theorem nl_candO_85000 : nl (6270615 / 120832) = 36 := by
  norm_num [nl, nlThresholds, List.countP_cons, List.countP_nil,
    abs_of_nonneg, decide_eq_true_eq]

/-- The witness frames' NL values differ. -/
theorem nl_mismatch_85000 :
    nl (cprCandidateLatE 85000 66200) ≠ nl (cprCandidateLatO 85000 66200) := by
  rw [candE_85000, candO_85000, nl_candE_85000, nl_candO_85000]
  decide

end Skywatch.Beast

/-- C1 (amended): decodeCPR returns no position whenever the NL values of
the candidate even and odd latitudes differ; and for the concrete paired
frames even (cprLat = 92095, cprLon = 39846) followed by odd
(cprLat = 74158, cprLon = 93000) the decode is exactly
(25261515/483328, −1170675/8192) ≈ (52.2658°, −142.9047°) — the latitude
is within 0.01° of the spec's 52.2572 but the longitude is not 3.9193. -/
theorem claim_C1 :
    (∀ (evenLat evenLon oddLat oddLon : ℕ) (useOdd : Bool),
      Beast.nl (Beast.cprCandidateLatE evenLat oddLat) ≠
        Beast.nl (Beast.cprCandidateLatO evenLat oddLat) →
      Beast.decodeCPR evenLat evenLon oddLat oddLon useOdd = none) ∧
    Beast.decodeCPR 92095 39846 74158 93000 true =
      some (25261515 / 483328, -1170675 / 8192) ∧
    |(25261515 / 483328 : ℚ) - 522572 / 10000| < 1 / 100 := by
  refine ⟨fun evenLat evenLon oddLat oddLon useOdd h => ?_,
    Beast.decodeCPR_92095, by norm_num [abs_of_nonneg]⟩
  simp [Beast.decodeCPR, h]

/-- C1 witness: concrete frames (cprLatEven 85000, cprLatOdd 66200) whose
candidate latitudes straddle the NL 37/36 boundary; the decode fails. -/
theorem claim_C1_witness :
    Beast.nl (Beast.cprCandidateLatE 85000 66200) ≠
      Beast.nl (Beast.cprCandidateLatO 85000 66200) ∧
    Beast.decodeCPR 85000 0 66200 0 true = none :=
  ⟨Beast.nl_mismatch_85000,
    claim_C1.1 85000 0 66200 0 true Beast.nl_mismatch_85000⟩

/-- C1 counterexample: for the claim's concrete paired frames the decoded
longitude is −142.90466…°, not within 0.01° of 3.9193°. -/
theorem claim_C1_counterexample :
    Beast.decodeCPR 92095 39846 74158 93000 true =
      some (25261515 / 483328, -1170675 / 8192) ∧
    ¬ |(-1170675 / 8192 : ℚ) - 39193 / 10000| < 1 / 100 := by
  refine ⟨Beast.decodeCPR_92095, ?_⟩
  rw [abs_sub_comm, abs_of_nonneg (by norm_num)]
  norm_num

/-- C2 (code bug): a complete type-'1' Beast frame whose timestamp byte
0x1A is doubled on the wire — raw bytes
`1A 31 1A 1A 00 00 00 00 00 40 AA BB` (12 bytes).  The spec requires
ParseFrame to unescape and return the message, consuming all 12 stuffed
bytes; the code sizes the frame window from the unstuffed length (11
bytes), finds the unescaped window one byte short, and returns
`(nil, 11)` — it drops the frame and resynchronizes in the middle of it.
Byte-stuffed frames therefore never parse. -/
theorem claim_C2 :
    Beast.ParseFrame [0x1a, 0x31, 0x1a, 0x1a, 0, 0, 0, 0, 0, 0x40, 0xaa, 0xbb] =
      (none, 11) := by
  decide

/-- C3 (amended): Aircraft.Merge, as invoked by Tracker.Update on an
existing record, keeps the existing value of every field the update does
not carry (nil pointer or empty string), overwrites with the update's
value every carried field among callsign, lat, lon, barometric and GNSS
altitude, speed, heading, vertical rate, squawk and on-ground and RSSI
flags, leaves the squawk unchanged when the update's squawk is empty, and
always takes the update's last-seen time.  Registration, aircraft type
and operator are never merged from an update, even when present. -/
theorem claim_C3 (a u : Models.Aircraft) :
    ((a.Merge u).lastSeen = u.lastSeen) ∧
    ((a.Merge u).registration = a.registration) ∧
    ((a.Merge u).aircraftType = a.aircraftType) ∧
    ((a.Merge u).operatorName = a.operatorName) ∧
    (u.callsign = "" → (a.Merge u).callsign = a.callsign) ∧
    (u.callsign ≠ "" → (a.Merge u).callsign = u.callsign) ∧
    (u.lat = none → (a.Merge u).lat = a.lat) ∧
    (u.lat ≠ none → (a.Merge u).lat = u.lat) ∧
    (u.lon = none → (a.Merge u).lon = a.lon) ∧
    (u.lon ≠ none → (a.Merge u).lon = u.lon) ∧
    (u.altitudeFt = none → (a.Merge u).altitudeFt = a.altitudeFt) ∧
    (u.altitudeFt ≠ none → (a.Merge u).altitudeFt = u.altitudeFt) ∧
    (u.altitudeGNSS = none → (a.Merge u).altitudeGNSS = a.altitudeGNSS) ∧
    (u.altitudeGNSS ≠ none → (a.Merge u).altitudeGNSS = u.altitudeGNSS) ∧
    (u.speedKt = none → (a.Merge u).speedKt = a.speedKt) ∧
    (u.speedKt ≠ none → (a.Merge u).speedKt = u.speedKt) ∧
    (u.heading = none → (a.Merge u).heading = a.heading) ∧
    (u.heading ≠ none → (a.Merge u).heading = u.heading) ∧
    (u.verticalRate = none → (a.Merge u).verticalRate = a.verticalRate) ∧
    (u.verticalRate ≠ none → (a.Merge u).verticalRate = u.verticalRate) ∧
    (u.squawk = "" → (a.Merge u).squawk = a.squawk) ∧
    (u.squawk ≠ "" → (a.Merge u).squawk = u.squawk) ∧
    (u.onGround = none → (a.Merge u).onGround = a.onGround) ∧
    (u.onGround ≠ none → (a.Merge u).onGround = u.onGround) ∧
    (u.rssi = none → (a.Merge u).rssi = a.rssi) ∧
    (u.rssi ≠ none → (a.Merge u).rssi = u.rssi) := by
  unfold Models.Aircraft.Merge
  refine ⟨rfl, rfl, rfl, rfl, ?_, ?_, ?_, ?_, ?_, ?_, ?_, ?_, ?_, ?_, ?_,
    ?_, ?_, ?_, ?_, ?_, ?_, ?_, ?_, ?_, ?_, ?_⟩ <;>
    · intro h
      simp [h, Option.isSome_iff_ne_none]

/-- C3 witness: a populated record merged with an empty update keeps its
callsign and position; merged with a populated update it takes the new
callsign, squawk and last-seen — but registration stays at the existing
value "REG" even though the update carries "RNEW". -/
theorem claim_C3_witness :
    (Models.Aircraft.Merge
        { icao := "AB", callsign := "OLD", registration := "REG",
          lat := some 1, squawk := "1200", lastSeen := 0 }
        { icao := "AB", lastSeen := 5 }).callsign = "OLD" ∧
    (Models.Aircraft.Merge
        { icao := "AB", callsign := "OLD", registration := "REG",
          lat := some 1, squawk := "1200", lastSeen := 0 }
        { icao := "AB", lastSeen := 5 }).lat = some 1 ∧
    (Models.Aircraft.Merge
        { icao := "AB", callsign := "OLD", registration := "REG",
          lat := some 1, squawk := "1200", lastSeen := 0 }
        { icao := "AB", callsign := "NEW", registration := "RNEW",
          lat := some 3, squawk := "7000", lastSeen := 9 }).callsign = "NEW" ∧
    (Models.Aircraft.Merge
        { icao := "AB", callsign := "OLD", registration := "REG",
          lat := some 1, squawk := "1200", lastSeen := 0 }
        { icao := "AB", callsign := "NEW", registration := "RNEW",
          lat := some 3, squawk := "7000", lastSeen := 9 }).squawk = "7000" ∧
    (Models.Aircraft.Merge
        { icao := "AB", callsign := "OLD", registration := "REG",
          lat := some 1, squawk := "1200", lastSeen := 0 }
        { icao := "AB", callsign := "NEW", registration := "RNEW",
          lat := some 3, squawk := "7000", lastSeen := 9 }).lastSeen = 9 ∧
    (Models.Aircraft.Merge
        { icao := "AB", callsign := "OLD", registration := "REG",
          lat := some 1, squawk := "1200", lastSeen := 0 }
        { icao := "AB", callsign := "NEW", registration := "RNEW",
          lat := some 3, squawk := "7000", lastSeen := 9 }).registration = "REG" := by
  obtain ⟨-, -, -, -, e5, -, e7, -⟩ :=
    claim_C3
      { icao := "AB", callsign := "OLD", registration := "REG",
        lat := some 1, squawk := "1200", lastSeen := 0 }
      { icao := "AB", lastSeen := 5 }
  obtain ⟨f1, f2, -, -, -, f6, -, -, -, -, -, -, -, -, -, -, -, -, -, -, -,
      f22, -⟩ :=
    claim_C3
      { icao := "AB", callsign := "OLD", registration := "REG",
        lat := some 1, squawk := "1200", lastSeen := 0 }
      { icao := "AB", callsign := "NEW", registration := "RNEW",
        lat := some 3, squawk := "7000", lastSeen := 9 }
  exact ⟨e5 rfl, e7 rfl, f6 (by decide), f22 (by decide), f1, f2⟩

/-- C3 counterexample: Tracker.Update on an existing aircraft with an
update that carries registration "NEW" and callsign "JET1"; the merged
record takes the callsign but keeps the old registration "OLD", so a
present scalar field does not take the update's value. -/
theorem claim_C3_counterexample :
    ((Tracker.Update Tracker.cfg0
        (Tracker.Update Tracker.cfg0 (fun _ => none)
          (some { icao := "AB12E3", registration := "OLD", lastSeen := 0 }))
        (some { icao := "AB12E3", registration := "NEW", callsign := "JET1",
                lastSeen := 1 }))
      "AB12E3").map (fun a => (a.registration, a.callsign)) =
        some ("OLD", "JET1") ∧ "OLD" ≠ "NEW" := by
  constructor
  · with_unfolding_all decide
  · decide

namespace Skywatch.Tracker

/-- CalculateDistance only writes the derived distance, bearing and
cardinal fields; every other field is preserved. -/
theorem CalculateDistance_fields (cfg : Cfg) (a : Models.Aircraft) :
    (CalculateDistance cfg a).lat = a.lat ∧
    (CalculateDistance cfg a).lon = a.lon ∧
    (CalculateDistance cfg a).trail = a.trail ∧
    (CalculateDistance cfg a).lastSeen = a.lastSeen ∧
    (CalculateDistance cfg a).callsign = a.callsign ∧
    (CalculateDistance cfg a).altitudeFt = a.altitudeFt ∧
    (CalculateDistance cfg a).altitudeGNSS = a.altitudeGNSS ∧
    (CalculateDistance cfg a).speedKt = a.speedKt ∧
    (CalculateDistance cfg a).heading = a.heading ∧
    (CalculateDistance cfg a).verticalRate = a.verticalRate ∧
    (CalculateDistance cfg a).squawk = a.squawk ∧
    (CalculateDistance cfg a).onGround = a.onGround ∧
    (CalculateDistance cfg a).rssi = a.rssi ∧
    (CalculateDistance cfg a).registration = a.registration ∧
    (CalculateDistance cfg a).aircraftType = a.aircraftType ∧
    (CalculateDistance cfg a).operatorName = a.operatorName := by
  unfold CalculateDistance
  split <;> exact ⟨rfl, rfl, rfl, rfl, rfl, rfl, rfl, rfl, rfl, rfl, rfl,
    rfl, rfl, rfl, rfl, rfl⟩

/-- The motion filter rejects an update whose quick distance from the
existing position exceeds the spec's ceiling
`max 5 (800·elapsed·1.5/3600)`; the source's clamping of non-positive
elapsed times to one second never relaxes that ceiling. -/
theorem isPositionValid_false_of_jump (ex u : Models.Aircraft)
    (elat elon ulat ulon : ℚ)
    (hexlat : ex.lat = some elat) (hexlon : ex.lon = some elon)
    (hulat : u.lat = some ulat) (hulon : u.lon = some ulon)
    (hd : quickDistanceNM elat elon ulat ulon >
      max 5 (800 * (u.lastSeen - ex.lastSeen) * (3 / 2) / 3600)) :
    isPositionValid ex u = false := by
  unfold isPositionValid
  rw [hulat, hulon, hexlat, hexlon]
  dsimp only
  rw [decide_eq_false_iff_not, not_le]
  rcases le_or_lt (u.lastSeen - ex.lastSeen) 0 with he | he
  · simp only [if_pos he]
    have h13 : (800 : ℚ) / 3600 * 1 * (3 / 2) < 5 := by norm_num
    rw [if_pos h13]
    exact lt_of_le_of_lt (le_max_left _ _) hd
  · simp only [if_neg (not_le.mpr he)]
    have hveq : (800 : ℚ) * (u.lastSeen - ex.lastSeen) * (3 / 2) / 3600 =
        800 / 3600 * (u.lastSeen - ex.lastSeen) * (3 / 2) := by ring
    rw [hveq] at hd
    rcases lt_or_le ((800 : ℚ) / 3600 * (u.lastSeen - ex.lastSeen) * (3 / 2)) 5
      with hv | hv
    · rw [if_pos hv]
      exact lt_of_le_of_lt (le_max_left _ _) hd
    · rw [if_neg (not_lt.mpr hv)]
      exact lt_of_le_of_lt (le_max_right _ _) hd

/-- When the motion filter rejects, the stored record is exactly the
merge of the update with its coordinates dropped (plus recomputed
derived fields); in particular no trail point is appended, because the
stored position cannot have changed. -/
theorem updateExisting_of_invalid (cfg : Cfg) (ex u : Models.Aircraft)
    (h : isPositionValid ex u = false) :
    updateExisting cfg ex u =
      CalculateDistance cfg (ex.Merge { u with lat := none, lon := none }) := by
  unfold updateExisting
  rw [h]
  simp only [Bool.false_eq_true, if_false]
  rw [if_neg]
  rintro ⟨hpc, -⟩
  have hml : (CalculateDistance cfg
      (ex.Merge { u with lat := none, lon := none })).lat = ex.lat := by
    rw [(CalculateDistance_fields cfg _).1]
    simp [Models.Aircraft.Merge]
  have hmo : (CalculateDistance cfg
      (ex.Merge { u with lat := none, lon := none })).lon = ex.lon := by
    rw [(CalculateDistance_fields cfg _).2.1]
    simp [Models.Aircraft.Merge]
  rcases hpc with hpc | hpc
  · exact hpc hml.symm
  · exact hpc hmo.symm

end Skywatch.Tracker

/-- C4 (amended): for an Update on an existing aircraft where both
records carry a position and the quick equirectangular distance exceeds
`max 5 (800·elapsed·1.5/3600)` nautical miles, the stored record keeps
the old lat/lon, the trail is untouched, last-seen is updated, and every
update field Merge handles (callsign, altitudes, speed, heading,
vertical rate, squawk, on-ground, RSSI) still overwrites when present;
registration, aircraft type and operator are never taken from updates. -/
theorem claim_C4 (cfg : Tracker.Cfg) (ex u : Models.Aircraft)
    (elat elon ulat ulon : ℚ)
    (hexlat : ex.lat = some elat) (hexlon : ex.lon = some elon)
    (hulat : u.lat = some ulat) (hulon : u.lon = some ulon)
    (hd : Tracker.quickDistanceNM elat elon ulat ulon >
      max 5 (800 * (u.lastSeen - ex.lastSeen) * (3 / 2) / 3600)) :
    (Tracker.updateExisting cfg ex u).lat = ex.lat ∧
    (Tracker.updateExisting cfg ex u).lon = ex.lon ∧
    (Tracker.updateExisting cfg ex u).trail = ex.trail ∧
    (Tracker.updateExisting cfg ex u).lastSeen = u.lastSeen ∧
    (u.callsign ≠ "" → (Tracker.updateExisting cfg ex u).callsign = u.callsign) ∧
    (u.altitudeFt ≠ none →
      (Tracker.updateExisting cfg ex u).altitudeFt = u.altitudeFt) ∧
    (u.altitudeGNSS ≠ none →
      (Tracker.updateExisting cfg ex u).altitudeGNSS = u.altitudeGNSS) ∧
    (u.speedKt ≠ none → (Tracker.updateExisting cfg ex u).speedKt = u.speedKt) ∧
    (u.heading ≠ none → (Tracker.updateExisting cfg ex u).heading = u.heading) ∧
    (u.verticalRate ≠ none →
      (Tracker.updateExisting cfg ex u).verticalRate = u.verticalRate) ∧
    (u.squawk ≠ "" → (Tracker.updateExisting cfg ex u).squawk = u.squawk) ∧
    (u.onGround ≠ none →
      (Tracker.updateExisting cfg ex u).onGround = u.onGround) ∧
    (u.rssi ≠ none → (Tracker.updateExisting cfg ex u).rssi = u.rssi) ∧
    (Tracker.updateExisting cfg ex u).registration = ex.registration := by
  have hvalid := Tracker.isPositionValid_false_of_jump ex u elat elon ulat ulon
    hexlat hexlon hulat hulon hd
  rw [Tracker.updateExisting_of_invalid cfg ex u hvalid]
  obtain ⟨c1, c2, c3, c4, c5, c6, c7, c8, c9, c10, c11, c12, c13, c14, -⟩ :=
    Tracker.CalculateDistance_fields cfg
      (ex.Merge { u with lat := none, lon := none })
  refine ⟨?_, ?_, ?_, ?_, ?_, ?_, ?_, ?_, ?_, ?_, ?_, ?_, ?_, ?_⟩
  · rw [c1]; simp [Models.Aircraft.Merge]
  · rw [c2]; simp [Models.Aircraft.Merge]
  · rw [c3]; simp [Models.Aircraft.Merge]
  · rw [c4]; simp [Models.Aircraft.Merge]
  · intro h; rw [c5]; simp [Models.Aircraft.Merge, h]
  · intro h; rw [c6]
    simp [Models.Aircraft.Merge, Option.isSome_iff_ne_none, h]
  · intro h; rw [c7]
    simp [Models.Aircraft.Merge, Option.isSome_iff_ne_none, h]
  · intro h; rw [c8]
    simp [Models.Aircraft.Merge, Option.isSome_iff_ne_none, h]
  · intro h; rw [c9]
    simp [Models.Aircraft.Merge, Option.isSome_iff_ne_none, h]
  · intro h; rw [c10]
    simp [Models.Aircraft.Merge, Option.isSome_iff_ne_none, h]
  · intro h; rw [c11]; simp [Models.Aircraft.Merge, h]
  · intro h; rw [c12]
    simp [Models.Aircraft.Merge, Option.isSome_iff_ne_none, h]
  · intro h; rw [c13]
    simp [Models.Aircraft.Merge, Option.isSome_iff_ne_none, h]
  · rw [c14]; simp [Models.Aircraft.Merge]

namespace Skywatch.Tracker

/-- A 0.2°-latitude jump in one second: the quick distance (about
12.1 NM by the source's 5-step Newton square root) exceeds the 5 NM
ceiling. -/
theorem qd_jump_example :
    quickDistanceNM 0 0 (1 / 5) 0 >
      max 5 (800 * ((1 : ℚ) - 0) * (3 / 2) / 3600) := by
  norm_num [quickDistanceNM, cosApprox, sqrtApprox]

end Skywatch.Tracker

/-- C4 witness: existing record at (0,0) at t = 0, update at (0.2, 0) at
t = 1 with callsign "JET" and altitude 300; the jump is rejected, the
stored position and trail are unchanged, and callsign and altitude merge. -/
theorem claim_C4_witness :
    (Tracker.updateExisting Tracker.cfg0
      { icao := "AB", registration := "OLD", lat := some 0, lon := some 0,
        lastSeen := 0 }
      { icao := "AB", callsign := "JET", lat := some (1 / 5), lon := some 0,
        altitudeFt := some 300, lastSeen := 1 }).lat = some 0 ∧
    (Tracker.updateExisting Tracker.cfg0
      { icao := "AB", registration := "OLD", lat := some 0, lon := some 0,
        lastSeen := 0 }
      { icao := "AB", callsign := "JET", lat := some (1 / 5), lon := some 0,
        altitudeFt := some 300, lastSeen := 1 }).lon = some 0 ∧
    (Tracker.updateExisting Tracker.cfg0
      { icao := "AB", registration := "OLD", lat := some 0, lon := some 0,
        lastSeen := 0 }
      { icao := "AB", callsign := "JET", lat := some (1 / 5), lon := some 0,
        altitudeFt := some 300, lastSeen := 1 }).trail = [] ∧
    (Tracker.updateExisting Tracker.cfg0
      { icao := "AB", registration := "OLD", lat := some 0, lon := some 0,
        lastSeen := 0 }
      { icao := "AB", callsign := "JET", lat := some (1 / 5), lon := some 0,
        altitudeFt := some 300, lastSeen := 1 }).callsign = "JET" ∧
    (Tracker.updateExisting Tracker.cfg0
      { icao := "AB", registration := "OLD", lat := some 0, lon := some 0,
        lastSeen := 0 }
      { icao := "AB", callsign := "JET", lat := some (1 / 5), lon := some 0,
        altitudeFt := some 300, lastSeen := 1 }).altitudeFt = some 300 := by
  obtain ⟨h1, h2, h3, -, h5, h6, -⟩ :=
    claim_C4 Tracker.cfg0
      { icao := "AB", registration := "OLD", lat := some 0, lon := some 0,
        lastSeen := 0 }
      { icao := "AB", callsign := "JET", lat := some (1 / 5), lon := some 0,
        altitudeFt := some 300, lastSeen := 1 }
      0 0 (1 / 5) 0 rfl rfl rfl rfl Tracker.qd_jump_example
  exact ⟨h1, h2, h3, h5 (by decide), h6 (by decide)⟩

/-- C4 counterexample: the same rejected jump with an update that also
carries registration "NEW"; the stored record keeps registration "OLD",
so not every other present field of the update overwrites. -/
theorem claim_C4_counterexample :
    Tracker.quickDistanceNM 0 0 (1 / 5) 0 >
      max 5 (800 * ((1 : ℚ) - 0) * (3 / 2) / 3600) ∧
    (Tracker.updateExisting Tracker.cfg0
      { icao := "AB", registration := "OLD", lat := some 0, lon := some 0,
        lastSeen := 0 }
      { icao := "AB", registration := "NEW", lat := some (1 / 5),
        lon := some 0, lastSeen := 1 }).registration = "OLD" ∧
    "OLD" ≠ "NEW" := by
  refine ⟨Tracker.qd_jump_example, ?_, by decide⟩
  rw [Tracker.updateExisting_of_invalid Tracker.cfg0
    { icao := "AB", registration := "OLD", lat := some 0, lon := some 0,
      lastSeen := 0 }
    { icao := "AB", registration := "NEW", lat := some (1 / 5),
      lon := some 0, lastSeen := 1 }
    (Tracker.isPositionValid_false_of_jump
      { icao := "AB", registration := "OLD", lat := some 0, lon := some 0,
        lastSeen := 0 }
      { icao := "AB", registration := "NEW", lat := some (1 / 5),
        lon := some 0, lastSeen := 1 }
      0 0 (1 / 5) 0 rfl rfl rfl rfl Tracker.qd_jump_example)]
  rw [(Tracker.CalculateDistance_fields Tracker.cfg0
    _).2.2.2.2.2.2.2.2.2.2.2.2.2.1]
  rfl

namespace Skywatch.Tracker

/-- addToTrail only changes the trail; position and squawk are
untouched. -/
theorem addToTrail_fields (cfg : Cfg) (a : Models.Aircraft) :
    (addToTrail cfg a).lat = a.lat ∧ (addToTrail cfg a).lon = a.lon ∧
    (addToTrail cfg a).squawk = a.squawk := by
  unfold addToTrail
  split <;> exact ⟨rfl, rfl, rfl⟩

/-- Merge keeps lat and lon present-together when both inputs have them
present-together: the update's coordinates are taken or kept as a pair. -/
theorem Merge_latlon_together (a u : Models.Aircraft)
    (ha : a.lat.isSome = a.lon.isSome) (hu : u.lat.isSome = u.lon.isSome) :
    (a.Merge u).lat.isSome = (a.Merge u).lon.isSome := by
  simp only [Models.Aircraft.Merge]
  cases hsl : u.lat.isSome
  · have hso : u.lon.isSome = false := by rw [← hu]; exact hsl
    simp [hsl, hso, ha]
  · have hso : u.lon.isSome = true := by rw [← hu]; exact hsl
    simp [hsl, hso]

/-- The stored record of the existing-aircraft branch keeps lat and lon
present-together when the existing record and the update do. -/
theorem updateExisting_latlon_together (cfg : Cfg) (ex u : Models.Aircraft)
    (hex : ex.lat.isSome = ex.lon.isSome) (hu : u.lat.isSome = u.lon.isSome) :
    (updateExisting cfg ex u).lat.isSome = (updateExisting cfg ex u).lon.isSome := by
  unfold updateExisting
  dsimp only
  generalize hu2g : (if isPositionValid ex u then u
      else { u with lat := none, lon := none }) = u2
  have hu2 : u2.lat.isSome = u2.lon.isSome := by
    rw [← hu2g]
    split
    · exact hu
    · rfl
  generalize hmg : CalculateDistance cfg (ex.Merge u2) = m
  have hm : m.lat.isSome = m.lon.isSome := by
    rw [← hmg, (CalculateDistance_fields cfg _).1,
      (CalculateDistance_fields cfg _).2.1]
    exact Merge_latlon_together ex u2 hex hu2
  split
  · rw [(addToTrail_fields cfg m).1, (addToTrail_fields cfg m).2.1]
    exact hm
  · exact hm

/-- One Update call preserves the all-records lat-lon-together invariant
when the incoming record satisfies it. -/
theorem Update_latlon_together (cfg : Cfg) (s : StateMap) (v : Models.Aircraft)
    (hs : ∀ i a, s i = some a → a.lat.isSome = a.lon.isSome)
    (hv : v.lat.isSome = v.lon.isSome) :
    ∀ i a, Update cfg s (some v) i = some a → a.lat.isSome = a.lon.isSome := by
  intro i a h
  unfold Update at h
  dsimp only at h
  by_cases hic : v.icao = ""
  · rw [if_pos hic] at h
    exact hs i a h
  · rw [if_neg hic] at h
    rcases hex : s v.icao with _ | ex <;> rw [hex] at h <;> dsimp only at h
    · by_cases hi : i = v.icao
      · rw [if_pos hi] at h
        cases h
        rw [(CalculateDistance_fields cfg v).1, (CalculateDistance_fields cfg v).2.1]
        exact hv
      · rw [if_neg hi] at h
        exact hs i a h
    · by_cases hi : i = v.icao
      · rw [if_pos hi] at h
        cases h
        exact updateExisting_latlon_together cfg ex v (hs v.icao ex hex) hv
      · rw [if_neg hi] at h
        exact hs i a h

end Skywatch.Tracker

/-- C5 (amended): every aircraft record reachable in the live map through
Update calls whose partial records carry lat and lon together (as
CPR-decoded Beast partials always do) has lat present exactly when lon is
present.  SBS-parsed partials can carry one coordinate alone — see the
counterexample — so the invariant holds only under this restriction. -/
theorem claim_C5 (cfg : Tracker.Cfg) (s : Tracker.StateMap)
    (h : Tracker.ReachableP cfg (fun a => a.lat.isSome = a.lon.isSome) s) :
    ∀ i a, s i = some a → a.lat.isSome = a.lon.isSome := by
  induction h with
  | init => intro i a h; cases h
  | step u _ hP ih => exact Tracker.Update_latlon_together _ _ u ih hP

/-- C5 witness: a single update carrying both coordinates reaches a live
record with both coordinates present. -/
theorem claim_C5_witness :
    ((Tracker.Update Tracker.cfg0 (fun _ => none)
        (some { icao := "AB12E3", lat := some 1, lon := some 2, lastSeen := 0 }))
      "AB12E3").elim True (fun a => a.lat.isSome = a.lon.isSome) := by
  have h := claim_C5 Tracker.cfg0 _
    (Tracker.ReachableP.step
      { icao := "AB12E3", lat := some 1, lon := some 2, lastSeen := 0 }
      Tracker.ReachableP.init rfl)
  cases hv : (Tracker.Update Tracker.cfg0 (fun _ => none)
      (some { icao := "AB12E3", lat := some 1, lon := some 2, lastSeen := 0 }))
      "AB12E3" with
  | none => trivial
  | some a => exact h "AB12E3" a hv

/-- C5 counterexample: the SBS line with latitude 33.5 and an empty
longitude field parses to a partial with lat but no lon, and one Update
stores it: the live record violates lat-iff-lon. -/
theorem claim_C5_counterexample :
    ((Tracker.Update Tracker.cfg0 (fun _ => none)
        (SBS.ParseMessage 0 "MSG,3,1,1,ABC123,1,d,t,d,t,,37000,,,33.5,,,,,,,0"))
      "ABC123").map (fun a => (a.lat.isSome, a.lon.isSome)) =
      some (true, false) := by
  with_unfolding_all decide

namespace Skywatch.Tracker

/-- The squawk stored by the existing-aircraft branch: the update's
squawk when non-empty, the existing one otherwise (the motion filter and
the derived-field pass never touch it). -/
theorem updateExisting_squawk (cfg : Cfg) (ex u : Models.Aircraft) :
    (updateExisting cfg ex u).squawk =
      if u.squawk ≠ "" then u.squawk else ex.squawk := by
  unfold updateExisting
  dsimp only
  generalize hu2g : (if isPositionValid ex u then u
      else { u with lat := none, lon := none }) = u2
  have hu2sq : u2.squawk = u.squawk := by
    rw [← hu2g]
    split <;> rfl
  generalize hmg : CalculateDistance cfg (ex.Merge u2) = m
  have hmsq : m.squawk = if u.squawk ≠ "" then u.squawk else ex.squawk := by
    rw [← hmg, (CalculateDistance_fields cfg _).2.2.2.2.2.2.2.2.2.2.1]
    simp only [Models.Aircraft.Merge]
    rw [hu2sq]
  split
  · rw [(addToTrail_fields cfg m).2.2]
    exact hmsq
  · exact hmsq

/-- One Update call preserves the all-records squawk invariant
(empty or four octal digits) when the incoming record satisfies it. -/
theorem Update_squawk_ok (cfg : Cfg) (s : StateMap) (v : Models.Aircraft)
    (hs : ∀ i a, s i = some a →
      a.squawk = "" ∨ Models.okSquawk a.squawk = true)
    (hv : v.squawk = "" ∨ Models.okSquawk v.squawk = true) :
    ∀ i a, Update cfg s (some v) i = some a →
      a.squawk = "" ∨ Models.okSquawk a.squawk = true := by
  intro i a h
  unfold Update at h
  dsimp only at h
  by_cases hic : v.icao = ""
  · rw [if_pos hic] at h
    exact hs i a h
  · rw [if_neg hic] at h
    rcases hex : s v.icao with _ | ex <;> rw [hex] at h <;> dsimp only at h
    · by_cases hi : i = v.icao
      · rw [if_pos hi] at h
        cases h
        rw [(CalculateDistance_fields cfg v).2.2.2.2.2.2.2.2.2.2.1]
        exact hv
      · rw [if_neg hi] at h
        exact hs i a h
    · by_cases hi : i = v.icao
      · rw [if_pos hi] at h
        cases h
        rw [updateExisting_squawk cfg ex v]
        split
        · exact hv
        · exact hs v.icao ex hex
      · rw [if_neg hi] at h
        exact hs i a h

end Skywatch.Tracker

/-- C6 (amended): every aircraft record reachable in the live map through
Update calls whose partial records carry an empty or four-octal-digit
squawk has an empty or four-octal-digit squawk.  The SBS parser performs
no squawk validation — it stores any non-blank trimmed string from field
17 — so the invariant holds only under this restriction on the inputs. -/
theorem claim_C6 (cfg : Tracker.Cfg) (s : Tracker.StateMap)
    (h : Tracker.ReachableP cfg
      (fun a => a.squawk = "" ∨ Models.okSquawk a.squawk = true) s) :
    ∀ i a, s i = some a → a.squawk = "" ∨ Models.okSquawk a.squawk = true := by
  induction h with
  | init => intro i a h; cases h
  | step u _ hP ih => exact Tracker.Update_squawk_ok _ _ u ih hP

/-- C6 witness: an update with squawk 7700 reaches a live record whose
squawk is four octal digits. -/
theorem claim_C6_witness :
    ((Tracker.Update Tracker.cfg0 (fun _ => none)
        (some { icao := "AB12E3", squawk := "7700", lastSeen := 0 }))
      "AB12E3").elim True
      (fun a => a.squawk = "" ∨ Models.okSquawk a.squawk = true) := by
  have h := claim_C6 Tracker.cfg0 _
    (Tracker.ReachableP.step
      { icao := "AB12E3", squawk := "7700", lastSeen := 0 }
      Tracker.ReachableP.init (Or.inr (by decide)))
  cases hv : (Tracker.Update Tracker.cfg0 (fun _ => none)
      (some { icao := "AB12E3", squawk := "7700", lastSeen := 0 }))
      "AB12E3" with
  | none => trivial
  | some a => exact h "AB12E3" a hv

/-- C6 counterexample: an SBS line whose squawk field is "ABC" parses and
is stored unvalidated; the live record's squawk is neither empty nor four
octal digits. -/
theorem claim_C6_counterexample :
    ((Tracker.Update Tracker.cfg0 (fun _ => none)
        (SBS.ParseMessage 0 "MSG,3,1,1,ABC123,1,d,t,d,t,,,,,,,,ABC,,,,0"))
      "ABC123").map (fun a => a.squawk) = some "ABC" ∧
    ¬ ("ABC" = "" ∨ Models.okSquawk "ABC" = true) := by
  constructor
  · with_unfolding_all decide
  · decide

namespace Skywatch.Beast

/-- Valid type tags declare at least 2 data bytes. -/
theorem typeLen_ge (t d : ℕ) (h : typeLen t = some d) : 2 ≤ d := by
  unfold typeLen at h
  split_ifs at h <;> cases h <;> omega

/-- Unescaping a byte list that contains no escape byte is the
identity. -/
theorem unescape_eq_of_no_escape :
    ∀ l : List ℕ, (∀ b ∈ l, b ≠ escapeByte) → unescape l = l
  | [], _ => rfl
  | [b], _ => rfl
  | b0 :: b1 :: rest, h => by
    rw [unescape]
    rw [if_neg fun hc => h b0 (by simp) hc.1]
    rw [unescape_eq_of_no_escape (b1 :: rest)
      (fun b hb => h b (List.mem_cons_of_mem _ hb))]

/-- ParseFrame on a buffer that starts with a complete unstuffed frame
(tag `t`, declared data length `d`, payload of exactly `7 + d` bytes,
none of them the escape byte): the frame parses and exactly its bytes
are consumed, regardless of what follows. -/
theorem ParseFrame_complete (t d : ℕ) (payload rest : List ℕ)
    (ht : typeLen t = some d) (hlen : payload.length = 7 + d)
    (hesc : ∀ b ∈ payload, b ≠ escapeByte) :
    ParseFrame ((escapeByte :: t :: payload) ++ rest) =
      (some (frameMsg (escapeByte :: t :: payload)), 9 + d) := by
  unfold ParseFrame
  rw [List.cons_append, List.cons_append]
  rw [if_neg (by simp only [List.length_cons]; omega)]
  rw [if_neg (by simp [escapeByte])]
  have hget1 : ((escapeByte :: t :: (payload ++ rest)).getD 1 0) = t := rfl
  rw [hget1, ht]
  dsimp only
  rw [if_neg (by simp only [List.length_cons, List.length_append]; omega)]
  have htake : (escapeByte :: t :: (payload ++ rest)).take (2 + 6 + 1 + d) =
      escapeByte :: t :: payload := by
    have h9 : (2 + 6 + 1 + d) = 2 + (7 + d) := by omega
    rw [h9]
    simp [List.take_cons, ← hlen, List.take_left]
  rw [htake]
  have hdrop2 : (escapeByte :: t :: payload).drop 2 = payload := rfl
  rw [hdrop2, unescape_eq_of_no_escape payload hesc]
  rw [if_neg (by omega)]
  rw [Prod.mk.injEq]
  exact ⟨rfl, by omega⟩

/-- One loop step: a parse that consumes `c + 1` bytes and yields a
message prepends it and continues on the remaining bytes. -/
theorem parseLoopF_step (fuel : ℕ) (data : List ℕ) (m : Msg) (c : ℕ)
    (h : ParseFrame data = (some m, c + 1)) :
    parseLoopF (fuel + 1) data =
      (m :: (parseLoopF fuel (data.drop (c + 1))).1,
       (parseLoopF fuel (data.drop (c + 1))).2) := by
  simp [parseLoopF, h]

/-- Loop termination: a parse that consumes nothing stops the loop and
retains the buffer. -/
theorem parseLoopF_stop (fuel : ℕ) (data : List ℕ) (msg : Option Msg)
    (h : ParseFrame data = (msg, 0)) :
    parseLoopF (fuel + 1) data = ([], data) := by
  simp [parseLoopF, h]

/-- A 3-byte buffer holding the escape byte, a valid tag and one more
byte is a proper frame head: nothing is consumed. -/
theorem ParseFrame_short3 (t3 d3 c : ℕ) (ht : typeLen t3 = some d3) :
    ParseFrame [escapeByte, t3, c] = (none, 0) := by
  have hd := typeLen_ge t3 d3 ht
  unfold ParseFrame
  rw [if_neg (by simp)]
  rw [if_neg (by simp [escapeByte])]
  have hget1 : (([escapeByte, t3, c] : List ℕ).getD 1 0) = t3 := rfl
  rw [hget1, ht]
  dsimp only
  rw [if_pos (by simp; omega)]

end Skywatch.Beast

/-- C7 (confirmed): ParseFrame returns (nil, 0) on any buffer shorter
than 2 bytes and on any buffer that starts a valid frame but is shorter
than the declared frame length; returns (nil, 2) when byte 0 is 0x1A and
the tag is invalid; and iterating it (the readBeast loop) over two
complete unstuffed frames followed by a 3-byte head of a third yields
exactly the two messages and retains the 3-byte head. -/
theorem claim_C7 :
    (∀ data : List ℕ, data.length < 2 → Beast.ParseFrame data = (none, 0)) ∧
    (∀ (t d : ℕ) (rest : List ℕ), Beast.typeLen t = some d →
      (Beast.escapeByte :: t :: rest).length < 2 + 6 + 1 + d →
      Beast.ParseFrame (Beast.escapeByte :: t :: rest) = (none, 0)) ∧
    (∀ (t : ℕ) (rest : List ℕ), Beast.typeLen t = none →
      Beast.ParseFrame (Beast.escapeByte :: t :: rest) = (none, 2)) ∧
    (∀ (t1 d1 t2 d2 t3 d3 c : ℕ) (p1 p2 : List ℕ),
      Beast.typeLen t1 = some d1 → p1.length = 7 + d1 →
      (∀ b ∈ p1, b ≠ Beast.escapeByte) →
      Beast.typeLen t2 = some d2 → p2.length = 7 + d2 →
      (∀ b ∈ p2, b ≠ Beast.escapeByte) →
      Beast.typeLen t3 = some d3 →
      Beast.parseLoop ((Beast.escapeByte :: t1 :: p1) ++
          ((Beast.escapeByte :: t2 :: p2) ++ [Beast.escapeByte, t3, c])) =
        ([Beast.frameMsg (Beast.escapeByte :: t1 :: p1),
          Beast.frameMsg (Beast.escapeByte :: t2 :: p2)],
         [Beast.escapeByte, t3, c])) := by
  refine ⟨?_, ?_, ?_, ?_⟩
  · intro data h
    unfold Beast.ParseFrame
    rw [if_pos h]
  · intro t d rest ht hshort
    unfold Beast.ParseFrame
    rw [if_neg (by simp only [List.length_cons]; omega)]
    rw [if_neg (by simp [Beast.escapeByte])]
    have hget1 : ((Beast.escapeByte :: t :: rest).getD 1 0) = t := rfl
    rw [hget1, ht]
    dsimp only
    rw [if_pos hshort]
  · intro t rest ht
    unfold Beast.ParseFrame
    rw [if_neg (by simp only [List.length_cons]; omega)]
    rw [if_neg (by simp [Beast.escapeByte])]
    have hget1 : ((Beast.escapeByte :: t :: rest).getD 1 0) = t := rfl
    rw [hget1, ht]
  · intro t1 d1 t2 d2 t3 d3 c p1 p2 ht1 hp1 he1 ht2 hp2 he2 ht3
    have hstep1 := Beast.ParseFrame_complete t1 d1 p1
      ((Beast.escapeByte :: t2 :: p2) ++ [Beast.escapeByte, t3, c]) ht1 hp1 he1
    have hstep2 := Beast.ParseFrame_complete t2 d2 p2
      [Beast.escapeByte, t3, c] ht2 hp2 he2
    have hf1len : (Beast.escapeByte :: t1 :: p1).length = 9 + d1 := by
      simp [hp1]; omega
    have hf2len : (Beast.escapeByte :: t2 :: p2).length = 9 + d2 := by
      simp [hp2]; omega
    have hdrop1 : ((Beast.escapeByte :: t1 :: p1) ++
        ((Beast.escapeByte :: t2 :: p2) ++ [Beast.escapeByte, t3, c])).drop
          (9 + d1) = (Beast.escapeByte :: t2 :: p2) ++ [Beast.escapeByte, t3, c] := by
      rw [← hf1len, List.drop_left]
    have hdrop2 : ((Beast.escapeByte :: t2 :: p2) ++
        [Beast.escapeByte, t3, c]).drop (9 + d2) = [Beast.escapeByte, t3, c] := by
      rw [← hf2len, List.drop_left]
    have hlen : ((Beast.escapeByte :: t1 :: p1) ++
        ((Beast.escapeByte :: t2 :: p2) ++ [Beast.escapeByte, t3, c])).length =
        ((9 + d1) + ((9 + d2) + 1)) + 2 := by
      simp [hp1, hp2]
      omega
    unfold Beast.parseLoop
    rw [hlen]
    have hsucc1 : ((9 + d1) + ((9 + d2) + 1)) + 2 = (((9 + d1) + ((9 + d2) + 1)) + 1) + 1 := by omega
    rw [hsucc1]
    rw [Beast.parseLoopF_step _ _ _ (8 + d1) (by rw [show 8 + d1 + 1 = 9 + d1 by omega]; exact hstep1)]
    rw [show 8 + d1 + 1 = 9 + d1 by omega]
    rw [hdrop1]
    rw [Beast.parseLoopF_step _ _ _ (8 + d2) (by rw [show 8 + d2 + 1 = 9 + d2 by omega]; exact hstep2)]
    rw [show 8 + d2 + 1 = 9 + d2 by omega]
    rw [hdrop2]
    rw [show 9 + d1 + (9 + d2 + 1) = 9 + d1 + (9 + d2) + 1 by omega]
    rw [Beast.parseLoopF_stop _ _ none (Beast.ParseFrame_short3 t3 d3 c ht3)]

/-- C7 witness: a 1-byte buffer, a 5-byte head of a type-'1' frame, a bad
tag 0x34, and a buffer of a complete type-'1' frame, a complete type-'2'
frame and a 3-byte head of a type-'3' frame. -/
theorem claim_C7_witness :
    Beast.ParseFrame [Beast.escapeByte] = (none, 0) ∧
    Beast.ParseFrame [Beast.escapeByte, 0x31, 1, 2, 3] = (none, 0) ∧
    Beast.ParseFrame [Beast.escapeByte, 0x34, 7, 8] = (none, 2) ∧
    Beast.parseLoop
        ((Beast.escapeByte :: 0x31 :: [1, 2, 3, 4, 5, 6, 0x40, 10, 11]) ++
         ((Beast.escapeByte :: 0x32 :: [0, 0, 0, 0, 0, 1, 7, 1, 2, 3, 4, 5, 6, 7]) ++
          [Beast.escapeByte, 0x33, 9])) =
      ([Beast.frameMsg (Beast.escapeByte :: 0x31 :: [1, 2, 3, 4, 5, 6, 0x40, 10, 11]),
        Beast.frameMsg (Beast.escapeByte :: 0x32 :: [0, 0, 0, 0, 0, 1, 7, 1, 2, 3, 4, 5, 6, 7])],
       [Beast.escapeByte, 0x33, 9]) := by
  refine ⟨claim_C7.1 _ (by decide),
    claim_C7.2.1 0x31 2 [1, 2, 3] (by decide) (by decide),
    claim_C7.2.2.1 0x34 [7, 8] (by decide),
    claim_C7.2.2.2 0x31 2 0x32 7 0x33 14 9 _ _ (by decide) (by decide)
      (by decide) (by decide) (by decide) (by decide) (by decide)⟩

namespace Skywatch.RangeTracker

/-- Out-of-range bearings and non-positive distances are ignored
entirely. -/
theorem Record_guard (s : State) (bearing dist : ℚ) (icao : String)
    (h : bearing < 0 ∨ 360 ≤ bearing ∨ dist ≤ 0) :
    Record s bearing dist icao = s := by
  rw [Record, if_pos h]

/-- Field-level description of an accepted Record call: the bucket's
contact count is bumped, and the bucket's max and ICAO are assigned
exactly when the distance strictly exceeds the current bucket max. -/
theorem Record_spec (s : State) (bearing dist : ℚ) (icao : String)
    (h : ¬(bearing < 0 ∨ 360 ≤ bearing ∨ dist ≤ 0)) :
    (Record s bearing dist icao).countByBearing =
      (fun i => if i = bucketOf bearing then s.countByBearing (bucketOf bearing) + 1
                else s.countByBearing i) ∧
    (Record s bearing dist icao).maxByBearing =
      (fun i => if i = bucketOf bearing ∧ s.maxByBearing (bucketOf bearing) < dist
                then dist else s.maxByBearing i) ∧
    (Record s bearing dist icao).icaoByBearing =
      (fun i => if i = bucketOf bearing ∧ s.maxByBearing (bucketOf bearing) < dist
                then icao else s.icaoByBearing i) := by
  simp only [Record, if_neg h]
  by_cases hmax : s.maxByBearing (bucketOf bearing) < dist
  · rw [if_pos hmax]
    split <;>
      refine ⟨rfl, ?_, ?_⟩ <;>
      · funext i
        by_cases hi : i = bucketOf bearing <;> simp [hi, hmax]
  · rw [if_neg hmax]
    split <;>
      refine ⟨rfl, ?_, ?_⟩ <;>
      · funext i
        by_cases hi : i = bucketOf bearing <;> simp [hi, hmax]

/-- A bucket maximum never decreases across one Record call. -/
theorem Record_max_mono (s : State) (bearing dist : ℚ) (icao : String)
    (b : ℕ) : s.maxByBearing b ≤ (Record s bearing dist icao).maxByBearing b := by
  by_cases hg : bearing < 0 ∨ 360 ≤ bearing ∨ dist ≤ 0
  · rw [Record_guard s bearing dist icao hg]
  · rw [(Record_spec s bearing dist icao hg).2.1]
    dsimp only
    split_ifs with hb
    · rw [hb.1]
      exact le_of_lt hb.2
    · exact le_refl _

end Skywatch.RangeTracker

/-- C8 (amended): a Record call with bearing in [0, 360) and positive
distance bumps that bucket's contact count by exactly one (all other
buckets untouched), assigns the bucket max and ICAO exactly when the
distance strictly exceeds the current bucket max (otherwise both keep
their values, and the max value changes exactly when the distance
exceeds it); a call with an out-of-range bearing or non-positive
distance is ignored entirely; and over any sequence of Record calls
every bucket's max is non-decreasing. -/
theorem claim_C8 :
    (∀ (s : RangeTracker.State) (bearing dist : ℚ) (icao : String),
      ¬(bearing < 0 ∨ 360 ≤ bearing ∨ dist ≤ 0) →
      ((RangeTracker.Record s bearing dist icao).countByBearing
          (RangeTracker.bucketOf bearing) =
        s.countByBearing (RangeTracker.bucketOf bearing) + 1) ∧
      (∀ b, b ≠ RangeTracker.bucketOf bearing →
        (RangeTracker.Record s bearing dist icao).countByBearing b =
          s.countByBearing b ∧
        (RangeTracker.Record s bearing dist icao).maxByBearing b =
          s.maxByBearing b ∧
        (RangeTracker.Record s bearing dist icao).icaoByBearing b =
          s.icaoByBearing b) ∧
      ((RangeTracker.Record s bearing dist icao).maxByBearing
          (RangeTracker.bucketOf bearing) ≠
        s.maxByBearing (RangeTracker.bucketOf bearing) ↔
        s.maxByBearing (RangeTracker.bucketOf bearing) < dist) ∧
      ((RangeTracker.Record s bearing dist icao).icaoByBearing
          (RangeTracker.bucketOf bearing) =
        if s.maxByBearing (RangeTracker.bucketOf bearing) < dist then icao
        else s.icaoByBearing (RangeTracker.bucketOf bearing))) ∧
    (∀ (s : RangeTracker.State) (bearing dist : ℚ) (icao : String),
      (bearing < 0 ∨ 360 ≤ bearing ∨ dist ≤ 0) →
      RangeTracker.Record s bearing dist icao = s) ∧
    (∀ (calls : List (ℚ × ℚ × String)) (s : RangeTracker.State) (b : ℕ),
      s.maxByBearing b ≤
        (calls.foldl RangeTracker.recordCall s).maxByBearing b) := by
  refine ⟨?_, RangeTracker.Record_guard, ?_⟩
  · intro s bearing dist icao h
    obtain ⟨hc, hm, hi⟩ := RangeTracker.Record_spec s bearing dist icao h
    refine ⟨?_, ?_, ?_, ?_⟩
    · rw [hc]
      simp
    · intro b hb
      rw [hc, hm, hi]
      simp [hb]
    · rw [hm]
      dsimp only
      by_cases hlt : s.maxByBearing (RangeTracker.bucketOf bearing) < dist
      · rw [if_pos (And.intro rfl hlt)]
        exact ⟨fun _ => hlt, fun _ => (ne_of_lt hlt).symm⟩
      · rw [if_neg (fun hc => hlt hc.2)]
        exact ⟨fun hne => absurd rfl hne, fun hl => absurd hl hlt⟩
    · rw [hi]
      by_cases hlt : s.maxByBearing (RangeTracker.bucketOf bearing) < dist <;>
        simp [hlt]
  · intro calls
    induction calls with
    | nil => intro s b; simp
    | cons c rest ih =>
      intro s b
      exact le_trans (RangeTracker.Record_max_mono s c.1 c.2.1 c.2.2 b) (ih _ b)

/-- C8 witness: recording 30 NM at bearing 37° in a fresh tracker bumps
bucket 3's count from 0 to 1; a distance-0 call is ignored; and over the
spec's three-call sequence (30, 50, 40 NM at 37°) bucket 3's max never
decreased. -/
theorem claim_C8_witness :
    ((RangeTracker.Record RangeTracker.initState 37 30 "A").countByBearing
        (RangeTracker.bucketOf 37) =
      RangeTracker.initState.countByBearing (RangeTracker.bucketOf 37) + 1) ∧
    RangeTracker.Record RangeTracker.initState 10 0 "X" =
      RangeTracker.initState ∧
    RangeTracker.initState.maxByBearing 3 ≤
      ([(37, 30, "A"), (37, 50, "B"), (37, 40, "C")].foldl
        RangeTracker.recordCall RangeTracker.initState).maxByBearing 3 :=
  ⟨(claim_C8.1 RangeTracker.initState 37 30 "A" (by norm_num)).1,
   claim_C8.2.1 RangeTracker.initState 10 0 "X" (by norm_num),
   claim_C8.2.2 [(37, 30, "A"), (37, 50, "B"), (37, 40, "C")]
     RangeTracker.initState 3⟩

/-- C8 counterexample: Record with distance 0 is ignored by the source's
guard, so bucket 1's contact count stays 0 instead of being incremented
by exactly one as the claim states for every call. -/
theorem claim_C8_counterexample :
    (RangeTracker.Record RangeTracker.initState 10 0 "X").countByBearing
      (RangeTracker.bucketOf 10) = 0 ∧ (0 : ℤ) ≠ 0 + 1 := by
  constructor
  · norm_num [RangeTracker.Record, RangeTracker.initState]
  · decide

namespace Skywatch.Webhook

/-- Send never touches the debounce map or the config. -/
theorem Send_preserves (s : DState) (e : Event) :
    (Send s e).recentSent = s.recentSent ∧
    (Send s e).emergencyEnabled = s.emergencyEnabled := by
  unfold Send
  split_ifs <;> exact ⟨rfl, rfl⟩

/-- If a SendEmergency call changed the event queue, it recorded its call
time for the ICAO's debounce key, and the emergency event type was
enabled. -/
theorem SendEmergency_recorded (s0 s1 : DState) (icao squawk : String)
    (t0 : ℚ) (hsend : SendEmergency t0 icao squawk s0 = s1)
    (hne : s1.events ≠ s0.events) :
    s1.recentSent ("emergency:" ++ icao) = some t0 ∧
    s1.emergencyEnabled = true := by
  rcases hB : s0.emergencyEnabled with _ | _
  · exfalso
    apply hne
    rw [← hsend]
    simp [SendEmergency, hB]
  · unfold SendEmergency at hsend
    rw [hB] at hsend
    simp only [Bool.not_true, Bool.false_eq_true, if_false] at hsend
    unfold shouldSend at hsend
    rcases hss : s0.recentSent ("emergency:" ++ icao) with _ | last <;>
      rw [hss] at hsend <;> dsimp only at hsend
    · simp only [Bool.not_true, Bool.false_eq_true, if_false] at hsend
      rw [← hsend, (Send_preserves _ _).1, (Send_preserves _ _).2]
      exact ⟨by simp, hB⟩
    · by_cases hwin : t0 - last < 300
      · exfalso
        apply hne
        rw [if_pos hwin] at hsend
        simp only [Bool.not_false, if_true] at hsend
        rw [← hsend]
      · rw [if_neg hwin] at hsend
        simp only [Bool.not_true, Bool.false_eq_true, if_false] at hsend
        rw [← hsend, (Send_preserves _ _).1, (Send_preserves _ _).2]
        exact ⟨by simp, hB⟩

end Skywatch.Webhook

/-- C9 (confirmed): IsEmergencySquawk accepts exactly "7500", "7600" and
"7700"; and once a SendEmergency call for an ICAO has enqueued an event,
any further SendEmergency call for the same ICAO less than 5 minutes
(300 s) later leaves the dispatcher state — in particular the outbound
event queue — completely unchanged. -/
theorem claim_C9 :
    (∀ s : String, Webhook.IsEmergencySquawk s = true ↔
      s = "7500" ∨ s = "7600" ∨ s = "7700") ∧
    (∀ (s0 s1 : Webhook.DState) (icao squawk squawk2 : String) (t0 t : ℚ),
      Webhook.SendEmergency t0 icao squawk s0 = s1 →
      s1.events ≠ s0.events →
      t0 ≤ t → t - t0 < 300 →
      Webhook.SendEmergency t icao squawk2 s1 = s1) := by
  constructor
  · intro s
    simp [Webhook.IsEmergencySquawk, Bool.or_eq_true, beq_iff_eq, or_assoc]
  · intro s0 s1 icao squawk squawk2 t0 t hsend hne hle hlt
    obtain ⟨hkey, hen⟩ :=
      Webhook.SendEmergency_recorded s0 s1 icao squawk t0 hsend hne
    unfold Webhook.SendEmergency
    rw [hen]
    simp only [Bool.not_true, Bool.false_eq_true, if_false]
    unfold Webhook.shouldSend
    rw [hkey]
    dsimp only
    rw [if_pos hlt]
    simp only [Bool.not_false, if_true]

/-- C9 witness: from a fresh dispatcher with the emergency event enabled
and a webhook URL configured, SendEmergency at t = 0 enqueues one event
and records the debounce key; a second call at t = 100 (same ICAO)
returns the state unchanged. -/
theorem claim_C9_witness :
    Webhook.IsEmergencySquawk "7600" = true ∧
    Webhook.SendEmergency 0 "ABC" "7700"
        { emergencyEnabled := true, discordURL := "u",
          recentSent := fun _ => none, events := [] } =
      { emergencyEnabled := true, discordURL := "u",
        recentSent := fun k => if k = "emergency:" ++ "ABC" then some 0 else none,
        events := [Webhook.NewEmergencyEvent 0 "ABC" "7700"] } ∧
    Webhook.SendEmergency 100 "ABC" "7700"
        { emergencyEnabled := true, discordURL := "u",
          recentSent := fun k => if k = "emergency:" ++ "ABC" then some 0 else none,
          events := [Webhook.NewEmergencyEvent 0 "ABC" "7700"] } =
      { emergencyEnabled := true, discordURL := "u",
        recentSent := fun k => if k = "emergency:" ++ "ABC" then some 0 else none,
        events := [Webhook.NewEmergencyEvent 0 "ABC" "7700"] } := by
  refine ⟨(claim_C9.1 "7600").mpr (Or.inr (Or.inl rfl)), rfl, ?_⟩
  exact claim_C9.2
    { emergencyEnabled := true, discordURL := "u",
      recentSent := fun _ => none, events := [] }
    { emergencyEnabled := true, discordURL := "u",
      recentSent := fun k => if k = "emergency:" ++ "ABC" then some 0 else none,
      events := [Webhook.NewEmergencyEvent 0 "ABC" "7700"] }
    "ABC" "7700" "7700" 0 100 rfl (by simp) (by norm_num) (by norm_num)

namespace Skywatch.HeapModel

/-- agreeBelow is reflexive. -/
theorem agreeBelow_refl (h : Heap) (N : ℕ) : agreeBelow h h N :=
  fun _ _ => ⟨rfl, rfl, rfl⟩

/-- agreeBelow composes when the intermediate bound is at least the
final one. -/
theorem agreeBelow_trans (h1 h2 h3 : Heap) (N1 N2 : ℕ)
    (ha : agreeBelow h2 h1 N1) (hb : agreeBelow h3 h2 N2) (hN : N1 ≤ N2) :
    agreeBelow h3 h1 N1 := by
  intro n hn
  obtain ⟨f1, i1, b1⟩ := ha n hn
  obtain ⟨f2, i2, b2⟩ := hb n (lt_of_lt_of_le hn hN)
  exact ⟨f2.trans f1, i2.trans i1, b2.trans b1⟩

/-- One optional-float copy: the allocator only moves forward, existing
cells are untouched, and any address handed out is fresh. -/
theorem copyF_spec (src : Option ℕ) (h : Heap) :
    h.next ≤ (copyF src h).2.next ∧
    agreeBelow (copyF src h).2 h h.next ∧
    (∀ ad, (copyF src h).1 = some ad → h.next ≤ ad) := by
  rcases src with _ | a
  · exact ⟨le_refl _, agreeBelow_refl h h.next, fun ad had => by cases had⟩
  · refine ⟨Nat.le_succ _, ?_, ?_⟩
    · intro n hn
      refine ⟨?_, rfl, rfl⟩
      simp only [copyF, allocF, writeF]
      rw [if_neg (Nat.ne_of_lt hn)]
    · intro ad had
      simp only [copyF] at had
      cases had
      exact le_refl _

/-- One optional-int copy; same allocator facts as `copyF_spec`. -/
theorem copyI_spec (src : Option ℕ) (h : Heap) :
    h.next ≤ (copyI src h).2.next ∧
    agreeBelow (copyI src h).2 h h.next ∧
    (∀ ad, (copyI src h).1 = some ad → h.next ≤ ad) := by
  rcases src with _ | a
  · exact ⟨le_refl _, agreeBelow_refl h h.next, fun ad had => by cases had⟩
  · refine ⟨Nat.le_succ _, ?_, ?_⟩
    · intro n hn
      refine ⟨rfl, ?_, rfl⟩
      simp only [copyI, allocI, writeI]
      rw [if_neg (Nat.ne_of_lt hn)]
    · intro ad had
      simp only [copyI] at had
      cases had
      exact le_refl _

/-- One optional-bool copy; same allocator facts as `copyF_spec`. -/
theorem copyB_spec (src : Option ℕ) (h : Heap) :
    h.next ≤ (copyB src h).2.next ∧
    agreeBelow (copyB src h).2 h h.next ∧
    (∀ ad, (copyB src h).1 = some ad → h.next ≤ ad) := by
  rcases src with _ | a
  · exact ⟨le_refl _, agreeBelow_refl h h.next, fun ad had => by cases had⟩
  · refine ⟨Nat.le_succ _, ?_, ?_⟩
    · intro n hn
      refine ⟨rfl, rfl, ?_⟩
      simp only [copyB, allocB, writeB]
      rw [if_neg (Nat.ne_of_lt hn)]
    · intro ad had
      simp only [copyB] at had
      cases had
      exact le_refl _

/-- Dereferencing a trail point only touches cells below any bound its
addresses respect: agreeing heaps read it equally. -/
theorem readPos_congr (h1 h2 : Heap) (N : ℕ) (p : PosH)
    (hag : agreeBelow h1 h2 N) (hwf : posWF p N = true) :
    readPos h1 p = readPos h2 p := by
  simp only [posWF, Bool.and_eq_true] at hwf
  obtain ⟨⟨halt, hspd⟩, hhdg⟩ := hwf
  have ha : p.altitudeFt.map h1.ival = p.altitudeFt.map h2.ival := by
    rcases hp : p.altitudeFt with _ | ad
    · rfl
    · rw [hp] at halt
      simp only [optLt, Option.all_some, decide_eq_true_eq] at halt
      simp [(hag ad halt).2.1]
  have hb : p.speedKt.map h1.fval = p.speedKt.map h2.fval := by
    rcases hp : p.speedKt with _ | ad
    · rfl
    · rw [hp] at hspd
      simp only [optLt, Option.all_some, decide_eq_true_eq] at hspd
      simp [(hag ad hspd).1]
  have hc : p.heading.map h1.fval = p.heading.map h2.fval := by
    rcases hp : p.heading with _ | ad
    · rfl
    · rw [hp] at hhdg
      simp only [optLt, Option.all_some, decide_eq_true_eq] at hhdg
      simp [(hag ad hhdg).1]
  simp only [readPos, ha, hb, hc]

/-- Dereferencing a record only touches cells below any bound its
addresses respect: agreeing heaps read it equally. -/
theorem readAircraft_congr (h1 h2 : Heap) (N : ℕ) (a : AircraftH)
    (hag : agreeBelow h1 h2 N) (hwf : acWF a N = true) :
    readAircraft h1 a = readAircraft h2 a := by
  simp only [acWF, Bool.and_eq_true] at hwf
  obtain ⟨⟨⟨⟨⟨⟨⟨⟨⟨⟨⟨hlat, hlon⟩, halt⟩, hgnss⟩, hspd⟩, hhdg⟩, hvr⟩, hog⟩,
    hrssi⟩, hdist⟩, hbrg⟩, htrail⟩ := hwf
  have hoptF : ∀ o : Option ℕ, optLt o N = true →
      o.map h1.fval = o.map h2.fval := by
    intro o ho
    rcases hp : o with _ | ad
    · rfl
    · rw [hp] at ho
      simp only [optLt, Option.all_some, decide_eq_true_eq] at ho
      simp [(hag ad ho).1]
  have hoptI : ∀ o : Option ℕ, optLt o N = true →
      o.map h1.ival = o.map h2.ival := by
    intro o ho
    rcases hp : o with _ | ad
    · rfl
    · rw [hp] at ho
      simp only [optLt, Option.all_some, decide_eq_true_eq] at ho
      simp [(hag ad ho).2.1]
  have hoptB : ∀ o : Option ℕ, optLt o N = true →
      o.map h1.bval = o.map h2.bval := by
    intro o ho
    rcases hp : o with _ | ad
    · rfl
    · rw [hp] at ho
      simp only [optLt, Option.all_some, decide_eq_true_eq] at ho
      simp [(hag ad ho).2.2]
  have htr : a.trail.map (readPos h1) = a.trail.map (readPos h2) := by
    apply List.map_congr_left
    intro p hp
    rw [List.all_eq_true] at htrail
    exact readPos_congr h1 h2 N p hag (by simpa using htrail p hp)
  simp only [readAircraft, hoptF _ hlat, hoptF _ hlon, hoptI _ halt,
    hoptI _ hgnss, hoptF _ hspd, hoptF _ hhdg, hoptI _ hvr, hoptB _ hog,
    hoptF _ hrssi, hoptF _ hdist, hoptF _ hbrg, htr]

/-- Allocator-level description of Copy: the trail is shared verbatim
(Go copies the Position structs, keeping their pointer fields), existing
cells are untouched, and every pointer field of the copy that is non-nil
holds a freshly allocated address. -/
theorem Copy_spec (a : AircraftH) (h : Heap) :
    (Copy a h).1.trail = a.trail ∧
    h.next ≤ (Copy a h).2.next ∧
    agreeBelow (Copy a h).2 h h.next ∧
    (∀ ad, ((Copy a h).1.lat = some ad ∨ (Copy a h).1.lon = some ad ∨
        (Copy a h).1.altitudeFt = some ad ∨
        (Copy a h).1.altitudeGNSS = some ad ∨
        (Copy a h).1.speedKt = some ad ∨ (Copy a h).1.heading = some ad ∨
        (Copy a h).1.verticalRate = some ad ∨
        (Copy a h).1.onGround = some ad ∨ (Copy a h).1.rssi = some ad ∨
        (Copy a h).1.distanceNM = some ad ∨
        (Copy a h).1.bearing = some ad) → h.next ≤ ad) := by
  unfold Copy
  dsimp only
  generalize hr1 : copyF a.lat h = r1
  have hs1 := copyF_spec a.lat h
  rw [hr1] at hs1
  generalize hr2 : copyF a.lon r1.2 = r2
  have hs2 := copyF_spec a.lon r1.2
  rw [hr2] at hs2
  generalize hr3 : copyI a.altitudeFt r2.2 = r3
  have hs3 := copyI_spec a.altitudeFt r2.2
  rw [hr3] at hs3
  generalize hr4 : copyI a.altitudeGNSS r3.2 = r4
  have hs4 := copyI_spec a.altitudeGNSS r3.2
  rw [hr4] at hs4
  generalize hr5 : copyF a.speedKt r4.2 = r5
  have hs5 := copyF_spec a.speedKt r4.2
  rw [hr5] at hs5
  generalize hr6 : copyF a.heading r5.2 = r6
  have hs6 := copyF_spec a.heading r5.2
  rw [hr6] at hs6
  generalize hr7 : copyI a.verticalRate r6.2 = r7
  have hs7 := copyI_spec a.verticalRate r6.2
  rw [hr7] at hs7
  generalize hr8 : copyB a.onGround r7.2 = r8
  have hs8 := copyB_spec a.onGround r7.2
  rw [hr8] at hs8
  generalize hr9 : copyF a.distanceNM r8.2 = r9
  have hs9 := copyF_spec a.distanceNM r8.2
  rw [hr9] at hs9
  generalize hr10 : copyF a.bearing r9.2 = r10
  have hs10 := copyF_spec a.bearing r9.2
  rw [hr10] at hs10
  generalize hr11 : copyF a.rssi r10.2 = r11
  have hs11 := copyF_spec a.rssi r10.2
  rw [hr11] at hs11
  have hn1 : h.next ≤ r1.2.next := hs1.1
  have hn2 : h.next ≤ r2.2.next := le_trans hn1 hs2.1
  have hn3 : h.next ≤ r3.2.next := le_trans hn2 hs3.1
  have hn4 : h.next ≤ r4.2.next := le_trans hn3 hs4.1
  have hn5 : h.next ≤ r5.2.next := le_trans hn4 hs5.1
  have hn6 : h.next ≤ r6.2.next := le_trans hn5 hs6.1
  have hn7 : h.next ≤ r7.2.next := le_trans hn6 hs7.1
  have hn8 : h.next ≤ r8.2.next := le_trans hn7 hs8.1
  have hn9 : h.next ≤ r9.2.next := le_trans hn8 hs9.1
  have hn10 : h.next ≤ r10.2.next := le_trans hn9 hs10.1
  have hn11 : h.next ≤ r11.2.next := le_trans hn10 hs11.1
  have hag1 : agreeBelow r1.2 h h.next := hs1.2.1
  have hag2 : agreeBelow r2.2 h h.next :=
    agreeBelow_trans h r1.2 r2.2 h.next r1.2.next hag1 hs2.2.1 hn1
  have hag3 : agreeBelow r3.2 h h.next :=
    agreeBelow_trans h r2.2 r3.2 h.next r2.2.next hag2 hs3.2.1 hn2
  have hag4 : agreeBelow r4.2 h h.next :=
    agreeBelow_trans h r3.2 r4.2 h.next r3.2.next hag3 hs4.2.1 hn3
  have hag5 : agreeBelow r5.2 h h.next :=
    agreeBelow_trans h r4.2 r5.2 h.next r4.2.next hag4 hs5.2.1 hn4
  have hag6 : agreeBelow r6.2 h h.next :=
    agreeBelow_trans h r5.2 r6.2 h.next r5.2.next hag5 hs6.2.1 hn5
  have hag7 : agreeBelow r7.2 h h.next :=
    agreeBelow_trans h r6.2 r7.2 h.next r6.2.next hag6 hs7.2.1 hn6
  have hag8 : agreeBelow r8.2 h h.next :=
    agreeBelow_trans h r7.2 r8.2 h.next r7.2.next hag7 hs8.2.1 hn7
  have hag9 : agreeBelow r9.2 h h.next :=
    agreeBelow_trans h r8.2 r9.2 h.next r8.2.next hag8 hs9.2.1 hn8
  have hag10 : agreeBelow r10.2 h h.next :=
    agreeBelow_trans h r9.2 r10.2 h.next r9.2.next hag9 hs10.2.1 hn9
  have hag11 : agreeBelow r11.2 h h.next :=
    agreeBelow_trans h r10.2 r11.2 h.next r10.2.next hag10 hs11.2.1 hn10
  refine ⟨rfl, hn11, hag11, ?_⟩
  intro ad had
  rcases had with hx0 | hx1 | hx2 | hx3 | hx4 | hx5 | hx6 | hx7 | hx8 | hx9 | hx10
  · exact hs1.2.2 ad hx0
  · exact le_trans hn1 (hs2.2.2 ad hx1)
  · exact le_trans hn2 (hs3.2.2 ad hx2)
  · exact le_trans hn3 (hs4.2.2 ad hx3)
  · exact le_trans hn4 (hs5.2.2 ad hx4)
  · exact le_trans hn5 (hs6.2.2 ad hx5)
  · exact le_trans hn6 (hs7.2.2 ad hx6)
  · exact le_trans hn7 (hs8.2.2 ad hx7)
  · exact le_trans hn10 (hs11.2.2 ad hx8)
  · exact le_trans hn8 (hs9.2.2 ad hx9)
  · exact le_trans hn9 (hs10.2.2 ad hx10)

end Skywatch.HeapModel

/-- C10 (amended): Copy shares the trail entries verbatim — each trail
point of the snapshot keeps the stored record's altitude/speed/heading
cell addresses — while every top-level pointer field of the snapshot is
a fresh allocation; consequently overwriting any freshly allocated cell
(any address at or above the allocation floor) leaves every value read
through the stored record unchanged, but overwriting a cell reachable
through a snapshot trail entry is a write to the stored record's own
cell (see the counterexample). -/
theorem claim_C10 (a : HeapModel.AircraftH) (h : HeapModel.Heap)
    (hwf : HeapModel.acWF a h.next = true) :
    (HeapModel.Copy a h).1.trail = a.trail ∧
    (∀ ad, ((HeapModel.Copy a h).1.lat = some ad ∨
        (HeapModel.Copy a h).1.lon = some ad ∨
        (HeapModel.Copy a h).1.altitudeFt = some ad ∨
        (HeapModel.Copy a h).1.altitudeGNSS = some ad ∨
        (HeapModel.Copy a h).1.speedKt = some ad ∨
        (HeapModel.Copy a h).1.heading = some ad ∨
        (HeapModel.Copy a h).1.verticalRate = some ad ∨
        (HeapModel.Copy a h).1.onGround = some ad ∨
        (HeapModel.Copy a h).1.rssi = some ad ∨
        (HeapModel.Copy a h).1.distanceNM = some ad ∨
        (HeapModel.Copy a h).1.bearing = some ad) → h.next ≤ ad) ∧
    (∀ ad v, h.next ≤ ad →
      HeapModel.readAircraft (HeapModel.writeF (HeapModel.Copy a h).2 ad v) a =
        HeapModel.readAircraft h a) ∧
    (∀ ad v, h.next ≤ ad →
      HeapModel.readAircraft (HeapModel.writeI (HeapModel.Copy a h).2 ad v) a =
        HeapModel.readAircraft h a) ∧
    (∀ ad v, h.next ≤ ad →
      HeapModel.readAircraft (HeapModel.writeB (HeapModel.Copy a h).2 ad v) a =
        HeapModel.readAircraft h a) := by
  obtain ⟨htrail, hnext, hagree, hfresh⟩ := HeapModel.Copy_spec a h
  have hagF : ∀ ad v, h.next ≤ ad →
      HeapModel.agreeBelow
        (HeapModel.writeF (HeapModel.Copy a h).2 ad v) h h.next := by
    intro ad v hle n hn
    obtain ⟨hf, hi, hb⟩ := hagree n hn
    refine ⟨?_, hi, hb⟩
    simp only [HeapModel.writeF]
    rw [if_neg (Nat.ne_of_lt (lt_of_lt_of_le hn hle))]
    exact hf
  have hagI : ∀ ad v, h.next ≤ ad →
      HeapModel.agreeBelow
        (HeapModel.writeI (HeapModel.Copy a h).2 ad v) h h.next := by
    intro ad v hle n hn
    obtain ⟨hf, hi, hb⟩ := hagree n hn
    refine ⟨hf, ?_, hb⟩
    simp only [HeapModel.writeI]
    rw [if_neg (Nat.ne_of_lt (lt_of_lt_of_le hn hle))]
    exact hi
  have hagB : ∀ ad v, h.next ≤ ad →
      HeapModel.agreeBelow
        (HeapModel.writeB (HeapModel.Copy a h).2 ad v) h h.next := by
    intro ad v hle n hn
    obtain ⟨hf, hi, hb⟩ := hagree n hn
    refine ⟨hf, hi, ?_⟩
    simp only [HeapModel.writeB]
    rw [if_neg (Nat.ne_of_lt (lt_of_lt_of_le hn hle))]
    exact hb
  exact ⟨htrail, hfresh,
    fun ad v hle => HeapModel.readAircraft_congr _ h h.next a (hagF ad v hle) hwf,
    fun ad v hle => HeapModel.readAircraft_congr _ h h.next a (hagI ad v hle) hwf,
    fun ad v hle => HeapModel.readAircraft_congr _ h h.next a (hagB ad v hle) hwf⟩

/-- C10 witness: a stored record with one float cell (address 0 holding
speed 100 inside the only trail point); a copy's trail is the very same
entry list, and overwriting the fresh cell address 5 changes nothing the
stored record reads. -/
theorem claim_C10_witness :
    (HeapModel.Copy
        { icao := "X",
          trail := [{ lat := 1, lon := 2, speedKt := some 0, timestamp := 5 }],
          lastSeen := 0 }
        { fval := fun _ => 100, ival := fun _ => 0, bval := fun _ => false,
          next := 1 }).1.trail =
      [{ lat := 1, lon := 2, speedKt := some 0, timestamp := 5 }] ∧
    HeapModel.readAircraft
        (HeapModel.writeF
          (HeapModel.Copy
            { icao := "X",
              trail := [{ lat := 1, lon := 2, speedKt := some 0, timestamp := 5 }],
              lastSeen := 0 }
            { fval := fun _ => 100, ival := fun _ => 0, bval := fun _ => false,
              next := 1 }).2 5 999)
        { icao := "X",
          trail := [{ lat := 1, lon := 2, speedKt := some 0, timestamp := 5 }],
          lastSeen := 0 } =
      HeapModel.readAircraft
        { fval := fun _ => 100, ival := fun _ => 0, bval := fun _ => false,
          next := 1 }
        { icao := "X",
          trail := [{ lat := 1, lon := 2, speedKt := some 0, timestamp := 5 }],
          lastSeen := 0 } := by
  have h := claim_C10
    { icao := "X",
      trail := [{ lat := 1, lon := 2, speedKt := some 0, timestamp := 5 }],
      lastSeen := 0 }
    { fval := fun _ => 100, ival := fun _ => 0, bval := fun _ => false,
      next := 1 }
    (by decide)
  exact ⟨h.1, h.2.2.1 5 999 (by decide)⟩

/-- C10 counterexample: the snapshot's only trail point still points at
the stored record's speed cell (address 0); writing 999 through that
pointer changes what the stored record reads (its trail speed goes from
100 to 999), so mutating the returned snapshot does not leave the
stored state unchanged. -/
theorem claim_C10_counterexample :
    ((HeapModel.Copy
        { icao := "X",
          trail := [{ lat := 1, lon := 2, speedKt := some 0, timestamp := 5 }],
          lastSeen := 0 }
        { fval := fun _ => 100, ival := fun _ => 0, bval := fun _ => false,
          next := 1 }).1.trail.map (fun p => p.speedKt)) = [some 0] ∧
    HeapModel.readAircraft
        (HeapModel.writeF
          (HeapModel.Copy
            { icao := "X",
              trail := [{ lat := 1, lon := 2, speedKt := some 0, timestamp := 5 }],
              lastSeen := 0 }
            { fval := fun _ => 100, ival := fun _ => 0, bval := fun _ => false,
              next := 1 }).2 0 999)
        { icao := "X",
          trail := [{ lat := 1, lon := 2, speedKt := some 0, timestamp := 5 }],
          lastSeen := 0 } ≠
      HeapModel.readAircraft
        { fval := fun _ => 100, ival := fun _ => 0, bval := fun _ => false,
          next := 1 }
        { icao := "X",
          trail := [{ lat := 1, lon := 2, speedKt := some 0, timestamp := 5 }],
          lastSeen := 0 } := by
  constructor
  · rfl
  · with_unfolding_all decide
